import Mathlib

/-!
# GoBiz proxy (`api/index.js`): the request handlers and their endpoint gate

A shallow embedding of the five Express handlers of `api/index.js`
(`/api/proxy`, `/api/otp/request`, `/api/otp/verify`, `/api/merchant/search`,
`/api/mutasi`) together with the helpers they use (`ALLOWED`, `baseHeaders`,
`normalizeEndpoint`, `pickUpstreamErr`, `upstream`, `ensureSession`).

JavaScript values are modelled by `JVal`; the coercions the source relies on
(`||`, `??`, `!x`, `String(x)`, `Number(x)`, template literals, `trim`,
`split`) are given their ECMAScript meaning on those values.  A handler is a
total function from the environment and the request to an `Outcome`: the reply
written to `res`, the list of `upstream(...)` calls made, and the place in the
handler that wrote the reply.

What the file takes from outside is a parameter (`Env`): `process.env`,
`crypto.randomUUID`, `toUpperCase`, the number/string conversions of the
runtime, and the HTTP client, which answers with a response or with the value
it rejects with.  The properties hold for every such environment.  Resource
limits (stack depth, body size) and the `-0` of floating point are outside the
model.
-/

namespace GoBizProxy

/-! ## JavaScript values -/

/-- A JavaScript number: `NaN`, `±Infinity`, or a finite value.  Finite values
are rationals; the handlers only test them for zero and compare them
(`Math.min`, `Math.max`), which is exact on rationals. -/
inductive JsNum where
  | nan
  | inf (neg : Bool)
  | fin (q : ℚ)
deriving DecidableEq

mutual
/-- A JavaScript value as the handlers see it: `undefined` or what `JSON.parse`
produces. -/
inductive JVal where
  | undefined
  | null
  | bool (b : Bool)
  | num (x : JsNum)
  | str (s : String)
  | arr (xs : JList)
  | obj (kvs : JProps)
deriving DecidableEq
/-- The elements of an array. -/
inductive JList where
  | nil
  | cons (v : JVal) (t : JList)
deriving DecidableEq
/-- The own properties of an object, in insertion order. -/
inductive JProps where
  | nil
  | cons (k : String) (v : JVal) (t : JProps)
deriving DecidableEq
end

/-- Array elements from a list. -/
def JList.ofList : List JVal → JList
  | [] => .nil
  | v :: t => .cons v (JList.ofList t)

/-- Own properties from a list of key/value pairs. -/
def JProps.ofList : List (String × JVal) → JProps
  | [] => .nil
  | (k, v) :: t => .cons k v (JProps.ofList t)

/-- The array literal `[v₁, …, vₙ]`. -/
def JVal.array (l : List JVal) : JVal := .arr (JList.ofList l)

/-- The object literal `{k₁: v₁, …, kₙ: vₙ}`. -/
def JVal.object (l : List (String × JVal)) : JVal := .obj (JProps.ofList l)

/-- Own-property test. -/
def JProps.hasKey (k : String) : JProps → Bool
  | .nil => false
  | .cons k2 _ t => k2 == k || t.hasKey k

/-- Own-property read; `undefined` when the key is absent. -/
def JProps.get (k : String) : JProps → JVal
  | .nil => .undefined
  | .cons k2 v t => if k2 = k then v else t.get k

/-- Property write as done by an object literal or a spread: an existing key
keeps its position and takes the new value, a new key goes last. -/
def JProps.set (k : String) (v : JVal) : JProps → JProps
  | .nil => .cons k v .nil
  | .cons k2 v2 t => if k2 = k then .cons k2 v t else .cons k2 v2 (t.set k v)

/-- The read `v?.k` (and `v.k` on a non-nullish `v`) for the keys the handlers
read (`endpoint`, `method`, `body`, `accept`, `bearer`, `session`, `uniqueId`,
`userAgent`, `phone`, `countryCode`, `otp`, `otpToken`, `merchantId`,
`dateYmd`, `size`, `message`, `error`): none of them exists on a built-in
prototype, so only an object's own property can answer. -/
def JVal.get (v : JVal) (k : String) : JVal :=
  match v with
  | .obj kvs => kvs.get k
  | _ => .undefined

/-- Truthiness of a number: `0` and `NaN` are falsy. -/
def JsNum.truthy : JsNum → Bool
  | .nan => false
  | .inf _ => true
  | .fin q => decide (q ≠ 0)

/-- Truthiness (`ToBoolean`). -/
def JVal.truthy : JVal → Bool
  | .undefined => false
  | .null => false
  | .bool b => b
  | .num x => x.truthy
  | .str s => decide (s ≠ "")
  | .arr _ => true
  | .obj _ => true

/-- The expression `a || b`. -/
def jsOr (a b : JVal) : JVal := if a.truthy then a else b

/-- `true` for `undefined` and `null`. -/
def JVal.isNullish : JVal → Bool
  | .undefined => true
  | .null => true
  | _ => false

/-- The expression `a ?? b`. -/
def jsCoalesce (a b : JVal) : JVal := if a.isNullish then b else a

/-- A thrown JavaScript value, seen through `e?.message`. -/
structure Thrown where
  message : Option String
deriving DecidableEq

deriving instance DecidableEq for Except

/-- The `TypeError` of `OrdinaryToPrimitive`. -/
def cannotConvert : Thrown := ⟨some "Cannot convert object to primitive value"⟩

mutual
/-- The conversion `String(v)` (also the conversion inside a template literal).
`ns` is `Number::toString`.  An object converts through `toString` and then
`valueOf`; a parsed object that has an own `toString` property shadows the
inherited method with a value that is not callable, the inherited `valueOf`
returns the object itself, and the conversion throws. -/
def jsString (ns : JsNum → String) : JVal → Except Thrown String
  | .undefined => .ok "undefined"
  | .null => .ok "null"
  | .bool b => .ok (if b then "true" else "false")
  | .num x => .ok (ns x)
  | .str s => .ok s
  | .arr xs => jsJoin ns xs
  | .obj kvs => if kvs.hasKey "toString" then .error cannotConvert else .ok "[object Object]"
/-- The method `Array.prototype.join` with the separator `","`, which is what
`String` of an array calls: `undefined` and `null` elements give `""`. -/
def jsJoin (ns : JsNum → String) : JList → Except Thrown String
  | .nil => .ok ""
  | .cons x .nil => if x.isNullish then Except.ok "" else jsString ns x
  | .cons x (.cons y t) =>
    match (if x.isNullish then Except.ok "" else jsString ns x), jsJoin ns (.cons y t) with
    | .ok a, .ok b => .ok (a ++ "," ++ b)
    | .error e, _ => .error e
    | .ok _, .error e => .error e
end

/-- The conversion `Number(v)`.  `sn` is `StringToNumber`, `ns` is
`Number::toString`.  Arrays and objects go through their string form. -/
def jsNumber (sn : String → JsNum) (ns : JsNum → String) : JVal → Except Thrown JsNum
  | .undefined => .ok .nan
  | .null => .ok (.fin 0)
  | .bool b => .ok (.fin (if b then 1 else 0))
  | .num x => .ok x
  | .str s => .ok (sn s)
  | .arr xs =>
    match jsJoin ns xs with
    | .ok s => .ok (sn s)
    | .error e => .error e
  | .obj kvs => if kvs.hasKey "toString" then .error cannotConvert else .ok (sn "[object Object]")

/-- Strict `a < b` on numbers that are not `NaN`. -/
def JsNum.lt : JsNum → JsNum → Bool
  | .fin a, .fin b => decide (a < b)
  | .fin _, .inf neg => !neg
  | .inf neg, .fin _ => neg
  | .inf a, .inf b => a && !b
  | _, _ => false

/-- The function `Math.min(a, b)`. -/
def mathMin (a b : JsNum) : JsNum :=
  match a, b with
  | .nan, _ => .nan
  | _, .nan => .nan
  | a, b => if b.lt a then b else a

/-- The function `Math.max(a, b)`. -/
def mathMax (a b : JsNum) : JsNum :=
  match a, b with
  | .nan, _ => .nan
  | _, .nan => .nan
  | a, b => if a.lt b then b else a

/-! ## Strings -/

/-- White space and line terminators, the characters `trim` removes. -/
def isJsWhiteSpace (c : Char) : Bool :=
  let n := c.toNat
  n == 0x09 || n == 0x0A || n == 0x0B || n == 0x0C || n == 0x0D || n == 0x20 ||
  n == 0xA0 || n == 0x1680 || (0x2000 ≤ n && n ≤ 0x200A) || n == 0x2028 ||
  n == 0x2029 || n == 0x202F || n == 0x205F || n == 0x3000 || n == 0xFEFF

/-- The method `trim` on the characters of a string. -/
def trimChars (l : List Char) : List Char :=
  ((l.dropWhile isJsWhiteSpace).reverse.dropWhile isJsWhiteSpace).reverse

/-- The method `String.prototype.trim`. -/
def trim (s : String) : String := ⟨trimChars s.data⟩

/-- The method `split` with a one-character separator, on the characters of a
string: the pieces between the occurrences of the separator. -/
def splitChars (sep : Char) : List Char → List (List Char)
  | [] => [[]]
  | c :: cs =>
    if c = sep then [] :: splitChars sep cs
    else
      match splitChars sep cs with
      | [] => [[c]]
      | p :: ps => (c :: p) :: ps

/-- The method `startsWith` with a one-character argument. -/
def startsWithChar (c : Char) (s : String) : Bool :=
  match s.data with
  | [] => false
  | d :: _ => d == c

/-! ## Environment, requests and replies -/

/-- The response object `axios` resolves with; `validateStatus: () => true`
makes every HTTP status resolve. -/
structure UpstreamResponse where
  status : Nat
  data : JVal
deriving DecidableEq

/-- The argument of `ax.request`. -/
structure AxRequest where
  method : String
  url : String
  data : JVal
  headers : JProps
deriving DecidableEq

/-- What the handlers take from outside the file: the process environment,
the random source, the string and number routines of the runtime, and the HTTP
client.  `axRequest` answers with the response, or with the value `axios`
rejects with on a transport failure. -/
structure Env where
  UPSTREAM_BASE : Option String
  randomUUID : String
  toUpperCase : String → String
  numberToString : JsNum → String
  stringToNumber : String → JsNum
  axRequest : AxRequest → Except Thrown UpstreamResponse

/-- The incoming request: the parsed body and the headers (lower-case names). -/
structure Request where
  body : JVal
  headers : List (String × String)

/-- The read `req.headers[name]`. -/
def Request.header (req : Request) (name : String) : JVal :=
  match req.headers.lookup name with
  | some v => .str v
  | none => .undefined

/-- The result of `ensureSession`. -/
structure Session where
  uniqueId : String
  userAgent : String
deriving DecidableEq

/-- The argument of `upstream`. -/
structure UpstreamRequest where
  endpoint : String
  method : String
  body : JVal
  headers : JProps
deriving DecidableEq

/-- The place in a handler that wrote the reply: a validation `return` ahead of
the upstream call, the code after the upstream call, or the `catch` block. -/
inductive Origin where
  | validation
  | upstream
  | fault
deriving DecidableEq

/-- What one run of a handler does: the reply `res.status(status).json(body)`,
the `upstream(...)` calls made on the way, and where the reply was written. -/
structure Outcome where
  status : Nat
  body : JVal
  calls : List UpstreamRequest
  origin : Origin
deriving DecidableEq

/-! ## `api/index.js` -/

/-- The constant `BASE_URL`. -/
def BASE_URL (env : Env) : String :=
  match env.UPSTREAM_BASE with
  | some s => if s ≠ "" then s else "https://api.gobiz.co.id"
  | none => "https://api.gobiz.co.id"

/-- The constant `ALLOWED`. -/
def ALLOWED : List String :=
  ["/goid/login/request", "/goid/token", "/v1/merchants/search", "/journals/search"]

/-- The function `baseHeaders`. -/
def baseHeaders (session : Session) : JProps :=
  JProps.ofList [
    ("Content-Type", .str "application/json"),
    ("Accept", .str "application/json, text/plain, */*"),
    ("Accept-Language", .str "id"),
    ("Origin", .str "https://portal.gofoodmerchant.co.id"),
    ("Referer", .str "https://portal.gofoodmerchant.co.id/"),
    ("Authentication-Type", .str "go-id"),
    ("Gojek-Country-Code", .str "ID"),
    ("Gojek-Timezone", .str "Asia/Jakarta"),
    ("X-Appid", .str "go-biz-web-dashboard"),
    ("X-Appversion", .str "platform-v3.97.0-b986b897"),
    ("X-Deviceos", .str "Web"),
    ("X-Phonemake", .str "Windows 10 64-bit"),
    ("X-Phonemodel", .str "Chrome 143.0.0.0 on Windows 10 64-bit"),
    ("X-Platform", .str "Web"),
    ("X-Uniqueid", .str (if session.uniqueId ≠ "" then session.uniqueId else "public")),
    ("X-User-Type", .str "merchant"),
    ("User-Agent", .str (if session.userAgent ≠ "" then session.userAgent
      else "Mozilla/5.0 (GoBizProxy)"))]

/-- The function `normalizeEndpoint`; `none` is its `null`. -/
def normalizeEndpoint (ep : JVal) : Option String :=
  match ep with
  | .str s =>
    if s = "" then none
    else if !startsWithChar '/' s then none
    else some ⟨(splitChars '?' s.data).headD []⟩
  | _ => none

/-- The function `pickUpstreamErr`. -/
def pickUpstreamErr (resp : UpstreamResponse) : JVal :=
  jsOr (resp.data.get "message")
    (jsOr (resp.data.get "error")
      (jsOr (match resp.data with
              | .str s => .str s
              | _ => .null)
        (.str ("HTTP_" ++ Nat.repr resp.status))))

/-- The function `upstream`: one `ax.request` to `BASE_URL` followed by the
endpoint. -/
def upstream (env : Env) (u : UpstreamRequest) : Except Thrown UpstreamResponse :=
  env.axRequest
    { method := u.method, url := BASE_URL env ++ u.endpoint, data := u.body, headers := u.headers }

/-- The function `ensureSession`. -/
def ensureSession (env : Env) (req : Request) : Except Thrown Session :=
  let session := jsOr (req.body.get "session") (JVal.object [])
  match jsString env.numberToString (jsOr (session.get "uniqueId") (.str "")) with
  | .error e => .error e
  | .ok a =>
    match jsString env.numberToString (jsOr (session.get "userAgent") (.str "")) with
    | .error e => .error e
    | .ok b =>
      .ok { uniqueId := if trim a ≠ "" then trim a else env.randomUUID,
            userAgent := if trim b ≠ "" then trim b else "Mozilla/5.0 (GoBizProxy)" }

/-- The expression `e?.message || "UNKNOWN_ERROR"`. -/
def errMessage (e : Thrown) : String :=
  match e.message with
  | some m => if m ≠ "" then m else "UNKNOWN_ERROR"
  | none => "UNKNOWN_ERROR"

/-- A `catch` block: status 500 with the handler's code and the message. -/
def caught (code : String) (e : Thrown) (calls : List UpstreamRequest) : Outcome :=
  { status := 500,
    body := JVal.object [("error", .str code), ("message", .str (errMessage e))],
    calls := calls, origin := .fault }

/-- A validation `return`: written ahead of the upstream call. -/
def reject (status : Nat) (body : JVal) : Outcome :=
  { status := status, body := body, calls := [], origin := .validation }

/-- The handler of `POST /api/proxy`. -/
def proxy (env : Env) (req : Request) : Outcome :=
  let endpoint := normalizeEndpoint (req.body.get "endpoint")
  match jsString env.numberToString (jsOr (req.body.get "method") (.str "POST")) with
  | .error e => caught "PROXY_ERROR" e []
  | .ok m =>
    let method := env.toUpperCase m
    let body := jsCoalesce (req.body.get "body") (JVal.object [])
    let accept := jsOr (req.body.get "accept") .null
    let bearer := jsOr (req.body.get "bearer") .null
    match endpoint with
    | none => reject 400 (JVal.object [("error", .str "INVALID_ENDPOINT")])
    | some endpoint =>
      if endpoint = "" then reject 400 (JVal.object [("error", .str "INVALID_ENDPOINT")])
      else if endpoint ∉ ALLOWED then
        reject 403 (JVal.object [("error", .str "ENDPOINT_NOT_ALLOWED"), ("endpoint", .str endpoint)])
      else if method ∉ ["POST", "GET"] then
        reject 405 (JVal.object [("error", .str "METHOD_NOT_ALLOWED")])
      else
        match ensureSession env req with
        | .error e => caught "PROXY_ERROR" e []
        | .ok session =>
          match (if bearer.truthy then
                  (match jsString env.numberToString bearer with
                   | .ok b => Except.ok ("Bearer " ++ b)
                   | .error e => .error e)
                 else .ok "Bearer") with
          | .error e => caught "PROXY_ERROR" e []
          | .ok authorization =>
            let headers :=
              ((if accept.truthy then (baseHeaders session).set "Accept" accept
                else baseHeaders session).set "Authorization" (.str authorization))
            let u : UpstreamRequest :=
              { endpoint := endpoint, method := method, body := body, headers := headers }
            match upstream env u with
            | .error e => caught "PROXY_ERROR" e [u]
            | .ok resp =>
              { status := resp.status, body := resp.data, calls := [u], origin := .upstream }

/-- The handler of `POST /api/otp/request`. -/
def otpRequest (env : Env) (req : Request) : Outcome :=
  match jsString env.numberToString (jsOr (req.body.get "phone") (.str "")) with
  | .error e => caught "OTP_REQUEST_ERROR" e []
  | .ok p =>
    let phone := trim p
    match jsString env.numberToString (jsOr (req.body.get "countryCode") (.str "62")) with
    | .error e => caught "OTP_REQUEST_ERROR" e []
    | .ok c =>
      let countryCode := trim c
      if phone = "" then reject 400 (JVal.object [("error", .str "PHONE_REQUIRED")])
      else
        match ensureSession env req with
        | .error e => caught "OTP_REQUEST_ERROR" e []
        | .ok session =>
          let body := JVal.object [
            ("client_id", .str "go-biz-web-new"),
            ("phone_number", .str phone),
            ("country_code", .str (if countryCode ≠ "" then countryCode else "62"))]
          let headers := (baseHeaders session).set "Authorization" (.str "Bearer")
          let u : UpstreamRequest :=
            { endpoint := "/goid/login/request", method := "POST", body := body,
              headers := headers }
          match upstream env u with
          | .error e => caught "OTP_REQUEST_ERROR" e [u]
          | .ok resp =>
            if resp.status < 200 ∨ resp.status ≥ 300 then
              { status := resp.status,
                body := JVal.object [
                  ("error", .str "OTP_REQUEST_FAILED"),
                  ("message", pickUpstreamErr resp),
                  ("data", jsOr resp.data .null)],
                calls := [u], origin := .upstream }
            else
              { status := 200, body := resp.data, calls := [u], origin := .upstream }

/-- The handler of `POST /api/otp/verify`. -/
def otpVerify (env : Env) (req : Request) : Outcome :=
  match jsString env.numberToString (jsOr (req.body.get "otp") (.str "")) with
  | .error e => caught "OTP_VERIFY_ERROR" e []
  | .ok o =>
    let otp := trim o
    match jsString env.numberToString
        (jsOr (jsOr (req.body.get "otpToken") (req.header "x-otp-token")) (.str "")) with
    | .error e => caught "OTP_VERIFY_ERROR" e []
    | .ok t =>
      let otpToken := trim t
      if otp = "" then reject 400 (JVal.object [("error", .str "OTP_REQUIRED")])
      else if otpToken = "" then reject 400 (JVal.object [("error", .str "OTP_TOKEN_REQUIRED")])
      else
        match ensureSession env req with
        | .error e => caught "OTP_VERIFY_ERROR" e []
        | .ok session =>
          let body := JVal.object [
            ("client_id", .str "go-biz-web-new"),
            ("grant_type", .str "otp"),
            ("data", JVal.object [("otp", .str otp), ("otp_token", .str otpToken)])]
          let headers := (baseHeaders session).set "Authorization" (.str "Bearer")
          let u : UpstreamRequest :=
            { endpoint := "/goid/token", method := "POST", body := body, headers := headers }
          match upstream env u with
          | .error e => caught "OTP_VERIFY_ERROR" e [u]
          | .ok resp =>
            if resp.status < 200 ∨ resp.status ≥ 300 then
              { status := resp.status,
                body := JVal.object [
                  ("error", .str "OTP_VERIFY_FAILED"),
                  ("message", pickUpstreamErr resp),
                  ("data", jsOr resp.data .null)],
                calls := [u], origin := .upstream }
            else
              { status := 200, body := resp.data, calls := [u], origin := .upstream }

/-- The handler of `POST /api/merchant/search`. -/
def merchantSearch (env : Env) (req : Request) : Outcome :=
  match jsString env.numberToString (jsOr (req.body.get "bearer") (.str "")) with
  | .error e => caught "MERCHANT_ERROR" e []
  | .ok b =>
    let bearer := trim b
    if bearer = "" then reject 400 (JVal.object [("error", .str "ACCESS_TOKEN_REQUIRED")])
    else
      match ensureSession env req with
      | .error e => caught "MERCHANT_ERROR" e []
      | .ok session =>
        let body := JVal.object [
          ("from", .num (.fin 0)),
          ("to", .num (.fin 1)),
          ("_source", JVal.array [.str "id", .str "name"])]
        let headers := (baseHeaders session).set "Authorization" (.str ("Bearer " ++ bearer))
        let u : UpstreamRequest :=
          { endpoint := "/v1/merchants/search", method := "POST", body := body,
            headers := headers }
        match upstream env u with
        | .error e => caught "MERCHANT_ERROR" e [u]
        | .ok resp =>
          { status := resp.status, body := resp.data, calls := [u], origin := .upstream }

/-- The `size` of the ledger query:
`Math.max(1, Math.min(200, Number(req.body?.size || 50)))`. -/
def mutasiSize (env : Env) (req : Request) : Except Thrown JsNum :=
  match jsNumber env.stringToNumber env.numberToString
      (jsOr (req.body.get "size") (.num (.fin 50))) with
  | .error e => .error e
  | .ok n => .ok (mathMax (.fin 1) (mathMin (.fin 200) n))

/-- The `clauses` of the ledger query. -/
def mutasiClauses (merchantId dateYmd : String) : JVal :=
  JVal.array [
    JVal.object [("field", .str "metadata.transaction.merchant_id"), ("op", .str "equal"),
      ("value", .str merchantId)],
    JVal.object [("field", .str "metadata.transaction.transaction_time"), ("op", .str "gte"),
      ("value", .str (dateYmd ++ "T00:00:00+07:00"))],
    JVal.object [("field", .str "metadata.transaction.transaction_time"), ("op", .str "lte"),
      ("value", .str (dateYmd ++ "T23:59:59+07:00"))]]

/-- The handler of `POST /api/mutasi`. -/
def mutasi (env : Env) (req : Request) : Outcome :=
  match jsString env.numberToString (jsOr (req.body.get "bearer") (.str "")) with
  | .error e => caught "MUTASI_ERROR" e []
  | .ok b =>
    let bearer := trim b
    match jsString env.numberToString (jsOr (req.body.get "merchantId") (.str "")) with
    | .error e => caught "MUTASI_ERROR" e []
    | .ok m =>
      let merchantId := trim m
      match jsString env.numberToString (jsOr (req.body.get "dateYmd") (.str "")) with
      | .error e => caught "MUTASI_ERROR" e []
      | .ok d =>
        let dateYmd := trim d
        match mutasiSize env req with
        | .error e => caught "MUTASI_ERROR" e []
        | .ok size =>
          if bearer = "" then reject 400 (JVal.object [("error", .str "ACCESS_TOKEN_REQUIRED")])
          else if merchantId = "" then
            reject 400 (JVal.object [("error", .str "MERCHANT_ID_REQUIRED")])
          else if dateYmd = "" then reject 400 (JVal.object [("error", .str "DATE_REQUIRED")])
          else
            match ensureSession env req with
            | .error e => caught "MUTASI_ERROR" e []
            | .ok session =>
              let body := JVal.object [
                ("from", .num (.fin 0)),
                ("size", .num size),
                ("sort", JVal.object [("time", JVal.object [("order", .str "desc")])]),
                ("included_categories",
                  JVal.object [("incoming", JVal.array [.str "transaction_share", .str "action"])]),
                ("query", JVal.array [
                  JVal.object [("op", .str "and"),
                    ("clauses", mutasiClauses merchantId dateYmd)]])]
              let headers :=
                ((baseHeaders session).set "Authorization" (.str ("Bearer " ++ bearer))).set
                  "Accept" (.str "application/json, application/vnd.journal.v1+json")
              let u : UpstreamRequest :=
                { endpoint := "/journals/search", method := "POST", body := body,
                  headers := headers }
              match upstream env u with
              | .error e => caught "MUTASI_ERROR" e [u]
              | .ok resp =>
                { status := resp.status, body := resp.data, calls := [u], origin := .upstream }

/-! ## Notions used to state the properties -/

mutual
/-- No object inside the value has an own property named `toString`; such a
value has a string form and a number form. -/
def JVal.sane : JVal → Bool
  | .arr xs => xs.sane
  | .obj kvs => !kvs.hasKey "toString" && kvs.sane
  | _ => true
/-- Every element of the array is `sane`. -/
def JList.sane : JList → Bool
  | .nil => true
  | .cons v t => v.sane && t.sane
/-- Every property value of the object is `sane`. -/
def JProps.sane : JProps → Bool
  | .nil => true
  | .cons _ v t => v.sane && t.sane
end

/-- Empty or made of white space only. -/
def isBlank (s : String) : Bool := s.data.all isJsWhiteSpace

/-- The part of a string before its first `?`, the whole string when it has
none. -/
def beforeQuery (s : String) : String := ⟨s.data.takeWhile (fun c => c != '?')⟩

/-- The end of `/api/proxy`, `/api/merchant/search` and `/api/mutasi`: the
upstream call, the response passed through, the `catch` block. -/
def forwarded (code : String) (env : Env) (u : UpstreamRequest) : Outcome :=
  match upstream env u with
  | .error e => caught code e [u]
  | .ok resp => { status := resp.status, body := resp.data, calls := [u], origin := .upstream }

/-- The end of the two OTP handlers: the upstream call, the failure wrapper on
a status outside 2xx, the body passed through at 200 otherwise, the `catch`
block. -/
def otpForwarded (failed code : String) (env : Env) (u : UpstreamRequest) : Outcome :=
  match upstream env u with
  | .error e => caught code e [u]
  | .ok resp =>
    if resp.status < 200 ∨ resp.status ≥ 300 then
      { status := resp.status,
        body := JVal.object [
          ("error", .str failed),
          ("message", pickUpstreamErr resp),
          ("data", jsOr resp.data .null)],
        calls := [u], origin := .upstream }
    else
      { status := 200, body := resp.data, calls := [u], origin := .upstream }

/-- An outcome reached without an upstream call: a validation reply (status
400, 403 or 405 and an `error` code), or the `catch` block with the handler's
code, which needs a request body that is not `sane`. -/
def Stopped (code : String) (req : Request) (o : Outcome) : Prop :=
  o.calls = [] ∧
  ((o.origin = .validation ∧ (o.status = 400 ∨ o.status = 403 ∨ o.status = 405) ∧
      ∃ c, o.body.get "error" = .str c) ∨
    (req.body.sane = false ∧ ∃ e, o = caught code e []))

/-- A validation reply made no upstream call, has status 400, 403 or 405 and
carries an `error` code. -/
def ValidationStops (o : Outcome) : Prop :=
  o.origin = .validation →
    o.calls = [] ∧ (o.status = 400 ∨ o.status = 403 ∨ o.status = 405) ∧
    ∃ c, o.body.get "error" = .str c

/-- The body field `k` is a string that is not blank. -/
def hasText (req : Request) (k : String) : Bool :=
  match req.body.get k with
  | .str s => !isBlank s
  | _ => false

/-- The endpoint of a raw-proxy request passes the gate: a string that starts
with `/` and whose part before the first `?` is an allowlist entry. -/
def endpointAllowed (req : Request) : Bool :=
  match req.body.get "endpoint" with
  | .str ep => decide (ep.data.head? = some '/') && decide (beforeQuery ep ∈ ALLOWED)
  | _ => false

/-- The method of a raw-proxy request, for a `method` that is absent, `null` or
a string: the field, and `POST` when it is absent or empty. -/
def methodText (req : Request) : Option String :=
  match req.body.get "method" with
  | .undefined => some "POST"
  | .null => some "POST"
  | .str m => some (if m = "" then "POST" else m)
  | _ => none

/-- The method of a raw-proxy request is `GET` or `POST` once in upper case. -/
def methodAllowed (env : Env) (req : Request) : Bool :=
  match methodText req with
  | some m => decide (env.toUpperCase m = "POST") || decide (env.toUpperCase m = "GET")
  | none => false

/-- The OTP token of an OTP-verify request, for an `otpToken` that is absent,
`null` or a string: the body field, and the `x-otp-token` header when the body
field is absent or empty. -/
def otpTokenText (req : Request) : Option String :=
  match req.body.get "otpToken" with
  | .undefined => req.headers.lookup "x-otp-token"
  | .null => req.headers.lookup "x-otp-token"
  | .str t => if t = "" then req.headers.lookup "x-otp-token" else some t
  | _ => none

/-- A raw-proxy request that passes input validation: the endpoint passes the
gate and the method is allowed. -/
def proxyValid (env : Env) (req : Request) : Bool :=
  endpointAllowed req && methodAllowed env req

/-- An OTP request that passes input validation: it has a phone. -/
def otpRequestValid (req : Request) : Bool := hasText req "phone"

/-- An OTP verify that passes input validation: it has an OTP and an OTP
token. -/
def otpVerifyValid (req : Request) : Bool :=
  hasText req "otp" &&
  (match otpTokenText req with
   | some t => !isBlank t
   | none => false)

/-- A merchant search that passes input validation: it has a bearer. -/
def merchantSearchValid (req : Request) : Bool := hasText req "bearer"

/-- A ledger query that passes input validation: it has a bearer, a merchant
id and a date. -/
def mutasiValid (req : Request) : Bool :=
  hasText req "bearer" && hasText req "merchantId" && hasText req "dateYmd"

/-- The reply of a handler with the error code `code` to a transport failure
`e`: status 500 and `code`; when no object of the request body has an own
`toString` property the upstream call was made and the message is that of `e`,
or `UNKNOWN_ERROR` when `e` has none or an empty one. -/
def TransportReply (code : String) (e : Thrown) (req : Request) (o : Outcome) : Prop :=
  o.status = 500 ∧ o.body.get "error" = .str code ∧
  (req.body.sane = true → o.calls ≠ [] ∧
    o.body = JVal.object [("error", .str code),
      ("message", .str (match e.message with
        | some m => if m = "" then "UNKNOWN_ERROR" else m
        | none => "UNKNOWN_ERROR"))])

/-! ## Sample environments and requests -/

/-- Upper-casing of the ASCII letters. -/
def asciiUpper (s : String) : String := ⟨s.data.map Char.toUpper⟩

/-- Decimal printing of the integer part of a number. -/
def sampleNumberToString : JsNum → String
  | .nan => "NaN"
  | .inf neg => if neg then "-Infinity" else "Infinity"
  | .fin q => if q < 0 then "-" ++ Nat.repr q.num.natAbs else Nat.repr q.num.natAbs

/-- An environment around the HTTP client `ax`. -/
def sampleEnv (ax : AxRequest → Except Thrown UpstreamResponse) : Env :=
  { UPSTREAM_BASE := none, randomUUID := "3f0c2a52-6c1e-4b7e-9a55-0d6f2b1c8e47",
    toUpperCase := asciiUpper, numberToString := sampleNumberToString,
    stringToNumber := fun _ => .nan, axRequest := ax }

/-- An upstream that answers every call with status 200 and a JSON body. -/
def okEnv : Env := sampleEnv (fun _ => .ok ⟨200, JVal.object [("success", .bool true)]⟩)

/-- An upstream that answers every call with status 201 and a JSON body. -/
def createdEnv : Env := sampleEnv (fun _ => .ok ⟨201, JVal.object [("otp_token", .str "a1b2")]⟩)

/-- An upstream that answers every call with status 502 and an empty body. -/
def badGatewayEnv : Env := sampleEnv (fun _ => .ok ⟨502, .str ""⟩)

/-- The value `axios` rejects with when the timeout elapses. -/
def timeoutError : Thrown := ⟨some "timeout of 30000ms exceeded"⟩

/-- A transport on which every call times out. -/
def timeoutEnv : Env := sampleEnv (fun _ => .error timeoutError)

/-- A transport on which every call fails with a value that has no message. -/
def silentFailEnv : Env := sampleEnv (fun _ => .error ⟨none⟩)

/-- The session `ensureSession` builds in `sampleEnv` for a request without
`session`. -/
def defaultSession : Session :=
  { uniqueId := "3f0c2a52-6c1e-4b7e-9a55-0d6f2b1c8e47", userAgent := "Mozilla/5.0 (GoBizProxy)" }

/-- A raw-proxy request for `/goid/token` with the method in lower case. -/
def tokenProxyRequest : Request :=
  { body := JVal.object [("endpoint", .str "/goid/token"), ("method", .str "get")],
    headers := [] }

/-- The upstream call `tokenProxyRequest` leads to. -/
def tokenProxyCall : UpstreamRequest :=
  { endpoint := "/goid/token", method := "GET", body := JVal.object [],
    headers := (baseHeaders defaultSession).set "Authorization" (.str "Bearer") }

/-- A raw-proxy request whose endpoint carries a query suffix. -/
def queryProxyRequest : Request :=
  { body := JVal.object [("endpoint", .str "/v1/merchants/search?x=1"), ("bearer", .str "tok")],
    headers := [] }

/-- A raw-proxy request for a path outside the allowlist. -/
def adminProxyRequest : Request :=
  { body := JVal.object [("endpoint", .str "/admin/users?x=1"), ("method", .str "DELETE"),
      ("body", JVal.object [("id", .num (.fin 7))])],
    headers := [] }

/-- A raw-proxy request whose endpoint does not start with `/`. -/
def noSlashProxyRequest : Request :=
  { body := JVal.object [("endpoint", .str "v1/merchants/search")], headers := [] }

/-- A raw-proxy request for a path outside the allowlist whose `method` is an
object with an own `toString` property. -/
def badMethodProxyRequest : Request :=
  { body := JVal.object [("endpoint", .str "/admin"),
      ("method", JVal.object [("toString", .null)])],
    headers := [] }

/-- A ledger request for one day. -/
def ledgerRequest : Request :=
  { body := JVal.object [("bearer", .str "tok"), ("merchantId", .str " G123 "),
      ("dateYmd", .str "2024-05-01")],
    headers := [] }

/-- A ledger request with `size` given as the number `n`. -/
def ledgerRequestWithSize (n : Int) : Request :=
  { body := JVal.object [("bearer", .str "tok"), ("merchantId", .str "G123"),
      ("dateYmd", .str "2024-05-01"), ("size", .num (.fin n))],
    headers := [] }

/-- An OTP-verify request with the OTP token in the `x-otp-token` header only. -/
def otpHeaderRequest : Request :=
  { body := JVal.object [("otp", .str "123456")], headers := [("x-otp-token", " tok-h ")] }

/-- An OTP-verify request with an OTP token in the body and another in the
header. -/
def otpBodyRequest : Request :=
  { body := JVal.object [("otp", .str "123456"), ("otpToken", .str "tok-b")],
    headers := [("x-otp-token", "tok-h")] }

/-- The body of the upstream call of an OTP verify. -/
def otpVerifyBody (otp otpToken : String) : JVal :=
  JVal.object [
    ("client_id", .str "go-biz-web-new"),
    ("grant_type", .str "otp"),
    ("data", JVal.object [("otp", .str otp), ("otp_token", .str otpToken)])]

/-- An OTP request for a phone number. -/
def phoneRequest : Request :=
  { body := JVal.object [("phone", .str "81234567890")], headers := [] }

/-- The upstream call `phoneRequest` leads to. -/
def phoneCall : UpstreamRequest :=
  { endpoint := "/goid/login/request", method := "POST",
    body := JVal.object [("client_id", .str "go-biz-web-new"),
      ("phone_number", .str "81234567890"), ("country_code", .str "62")],
    headers := (baseHeaders defaultSession).set "Authorization" (.str "Bearer") }

/-- A merchant search with a bearer made of white space. -/
def blankBearerRequest : Request :=
  { body := JVal.object [("bearer", .str "  ")], headers := [] }

/-- A merchant search with a bearer. -/
def merchantRequest : Request :=
  { body := JVal.object [("bearer", .str "tok")], headers := [] }

/-! ## Lemmas -/

theorem splitChars_head (sep : Char) (l : List Char) :
    (splitChars sep l).headD [] = l.takeWhile (fun c => c != sep) := by
  induction l with
  | nil => simp [splitChars]
  | cons c cs ih =>
    by_cases h : c = sep
    · simp [splitChars, h]
    · have hne : (c != sep) = true := by simpa using h
      simp only [splitChars, h, if_false, List.takeWhile, hne]
      cases hs : splitChars sep cs with
      | nil => simp [hs] at ih ⊢; exact ih
      | cons p ps => simp [hs] at ih; simp [← ih]

theorem JProps.get_sane_of_sane (k : String) : ∀ kvs : JProps, kvs.sane = true → (kvs.get k).sane = true
  | .nil, _ => by simp [JProps.get, JVal.sane]
  | .cons k2 v t, h => by
    simp [JProps.sane] at h
    by_cases hk : k2 = k
    · simp [JProps.get, hk, h.1]
    · simp [JProps.get, hk, JProps.get_sane_of_sane k t h.2]

theorem JVal.get_sane_value (v : JVal) (k : String) (h : v.sane = true) : (v.get k).sane = true := by
  cases v <;> simp [JVal.get, JVal.sane] at h ⊢
  exact JProps.get_sane_of_sane k _ h.2

theorem jsOr_sane (a b : JVal) (ha : a.sane = true) (hb : b.sane = true) : (jsOr a b).sane = true := by
  unfold jsOr; split <;> assumption

mutual
theorem jsString_of_sane (ns : JsNum → String) : ∀ v : JVal, v.sane = true → ∃ s, jsString ns v = .ok s
  | .undefined, _ => ⟨_, rfl⟩
  | .null, _ => ⟨_, rfl⟩
  | .bool _, _ => ⟨_, rfl⟩
  | .num _, _ => ⟨_, rfl⟩
  | .str _, _ => ⟨_, rfl⟩
  | .arr xs, h => by
    simp only [jsString]
    exact jsJoin_of_sane ns xs (by simpa [JVal.sane] using h)
  | .obj kvs, h => by
    simp [JVal.sane] at h
    simp [jsString, h.1]
theorem jsJoin_of_sane (ns : JsNum → String) : ∀ xs : JList, xs.sane = true → ∃ s, jsJoin ns xs = .ok s
  | .nil, _ => ⟨_, rfl⟩
  | .cons x .nil, h => by
    simp [JList.sane] at h
    simp only [jsJoin]
    split
    · exact ⟨_, rfl⟩
    · exact jsString_of_sane ns x h
  | .cons x (.cons y t), h => by
    simp [JList.sane] at h
    obtain ⟨b, hb⟩ := jsJoin_of_sane ns (.cons y t) (by simp [JList.sane, h.2])
    obtain ⟨a, ha⟩ := jsString_of_sane ns x h.1
    by_cases hx : x.isNullish = true <;> simp [jsJoin, hb, ha, hx]
end

theorem jsNumber_of_sane (sn : String → JsNum) (ns : JsNum → String) (v : JVal) (h : v.sane = true) :
    ∃ n, jsNumber sn ns v = .ok n := by
  cases v with
  | arr xs =>
    obtain ⟨s, hs⟩ := jsJoin_of_sane ns xs (by simpa [JVal.sane] using h)
    simp [jsNumber, hs]
  | obj kvs =>
    simp [JVal.sane] at h
    simp [jsNumber, h.1]
  | _ => exact ⟨_, rfl⟩

theorem jsString_error_not_sane {ns : JsNum → String} {v : JVal} {e : Thrown}
    (h : jsString ns v = .error e) : v.sane = false := by
  cases hs : v.sane with
  | false => rfl
  | true =>
    obtain ⟨s, hs2⟩ := jsString_of_sane ns v hs
    rw [hs2] at h
    cases h

theorem field_error_not_sane {ns : JsNum → String} {body d : JVal} {k : String} {e : Thrown}
    (hd : d.sane = true) (h : jsString ns (jsOr (body.get k) d) = .error e) :
    body.sane = false := by
  cases hs : body.sane with
  | false => rfl
  | true =>
    have := jsString_error_not_sane h
    rw [jsOr_sane _ _ (JVal.get_sane_value body k hs) hd] at this
    cases this

theorem ensureSession_error_not_sane {env : Env} {req : Request} {e : Thrown}
    (h : ensureSession env req = .error e) : req.body.sane = false := by
  cases hs : req.body.sane with
  | false => rfl
  | true =>
    have hsess : (jsOr (req.body.get "session") (JVal.object [])).sane = true :=
      jsOr_sane _ _ (JVal.get_sane_value _ _ hs) (by decide)
    obtain ⟨a, ha⟩ := jsString_of_sane env.numberToString _
      (jsOr_sane _ (.str "") (JVal.get_sane_value _ "uniqueId" hsess) (by decide))
    obtain ⟨b, hb⟩ := jsString_of_sane env.numberToString _
      (jsOr_sane _ (.str "") (JVal.get_sane_value _ "userAgent" hsess) (by decide))
    simp [ensureSession, ha, hb] at h

theorem mutasiSize_error_not_sane {env : Env} {req : Request} {e : Thrown}
    (h : mutasiSize env req = .error e) : req.body.sane = false := by
  cases hs : req.body.sane with
  | false => rfl
  | true =>
    obtain ⟨n, hn⟩ := jsNumber_of_sane env.stringToNumber env.numberToString _
      (jsOr_sane _ (.num (.fin 50)) (JVal.get_sane_value _ "size" hs) (by decide))
    simp [mutasiSize, hn] at h

theorem stopped_reject {code : String} {req : Request} {st : Nat} {c : String} {rest : List (String × JVal)}
    (hst : st = 400 ∨ st = 403 ∨ st = 405) :
    Stopped code req (reject st (JVal.object (("error", .str c) :: rest))) :=
  ⟨rfl, Or.inl ⟨rfl, hst, c, by simp [reject, JVal.object, JProps.ofList, JVal.get, JProps.get]⟩⟩

theorem stopped_caught {code : String} {req : Request} {e : Thrown} (h : req.body.sane = false) :
    Stopped code req (caught code e []) :=
  ⟨rfl, Or.inr ⟨h, e, rfl⟩⟩

theorem proxy_cases (env : Env) (req : Request) :
    Stopped "PROXY_ERROR" req (proxy env req) ∨
    ∃ u : UpstreamRequest,
      normalizeEndpoint (req.body.get "endpoint") = some u.endpoint ∧
      u.endpoint ∈ ALLOWED ∧ (u.method = "POST" ∨ u.method = "GET") ∧
      u.body = jsCoalesce (req.body.get "body") (JVal.object []) ∧
      proxy env req = forwarded "PROXY_ERROR" env u := by
  unfold proxy
  cases hm : jsString env.numberToString (jsOr (req.body.get "method") (.str "POST")) with
  | error e => exact Or.inl (stopped_caught (field_error_not_sane (by decide) hm))
  | ok m =>
    cases he : normalizeEndpoint (req.body.get "endpoint") with
    | none => exact Or.inl (stopped_reject (by simp))
    | some ep =>
      by_cases h1 : ep = ""
      · simp only [h1, if_true]; exact Or.inl (stopped_reject (by simp))
      by_cases h2 : ep ∈ ALLOWED
      swap
      · simp only [h1, h2, if_false, not_false_eq_true, if_true]; exact Or.inl (stopped_reject (by simp))
      by_cases h3 : env.toUpperCase m ∈ ["POST", "GET"]
      swap
      · simp only [h1, h2, h3, if_false, not_false_eq_true, if_true, not_true_eq_false]
        exact Or.inl (stopped_reject (by simp))
      cases hs : ensureSession env req with
      | error e =>
        simp only [h1, h2, h3, if_false, not_false_eq_true, if_true, not_true_eq_false]
        exact Or.inl (stopped_caught (ensureSession_error_not_sane hs))
      | ok session =>
        cases hb : (if (jsOr (req.body.get "bearer") .null).truthy then
                  (match jsString env.numberToString (jsOr (req.body.get "bearer") .null) with
                   | .ok b => Except.ok ("Bearer " ++ b)
                   | .error e => .error e)
                 else .ok "Bearer" : Except Thrown String) with
        | error e =>
          simp only [h1, h2, h3, hb, if_false, not_false_eq_true, if_true, not_true_eq_false]
          refine Or.inl (stopped_caught ?_)
          split at hb
          · cases hb2 : jsString env.numberToString (jsOr (req.body.get "bearer") .null) with
            | ok b => simp [hb2] at hb
            | error e2 => exact field_error_not_sane (by decide) hb2
          · cases hb
        | ok auth =>
          right
          simp only [h1, h2, h3, hb, if_false, not_false_eq_true, if_true, not_true_eq_false]
          refine ⟨{ endpoint := ep, method := env.toUpperCase m,
                    body := jsCoalesce (req.body.get "body") (JVal.object []),
                    headers := ((if (jsOr (req.body.get "accept") .null).truthy then
                        (baseHeaders session).set "Accept" (jsOr (req.body.get "accept") .null)
                      else baseHeaders session).set "Authorization" (.str auth)) },
                  rfl, h2, ?_, rfl, ?_⟩
          · simpa using h3
          · rfl

theorem otpRequest_cases (env : Env) (req : Request) :
    Stopped "OTP_REQUEST_ERROR" req (otpRequest env req) ∨
    ∃ u : UpstreamRequest,
      u.endpoint = "/goid/login/request" ∧ u.method = "POST" ∧
      otpRequest env req = otpForwarded "OTP_REQUEST_FAILED" "OTP_REQUEST_ERROR" env u := by
  unfold otpRequest
  cases hp : jsString env.numberToString (jsOr (req.body.get "phone") (.str "")) with
  | error e => exact Or.inl (stopped_caught (field_error_not_sane (by decide) hp))
  | ok p =>
    cases hc : jsString env.numberToString (jsOr (req.body.get "countryCode") (.str "62")) with
    | error e => exact Or.inl (stopped_caught (field_error_not_sane (by decide) hc))
    | ok c =>
      by_cases h1 : trim p = ""
      · simp only [h1, if_true]; exact Or.inl (stopped_reject (by simp))
      cases hs : ensureSession env req with
      | error e =>
        simp only [h1, if_false]
        exact Or.inl (stopped_caught (ensureSession_error_not_sane hs))
      | ok session =>
        right
        simp only [h1, if_false]
        exact ⟨{ endpoint := "/goid/login/request", method := "POST",
                 body := JVal.object [
                   ("client_id", .str "go-biz-web-new"),
                   ("phone_number", .str (trim p)),
                   ("country_code", .str (if trim c ≠ "" then trim c else "62"))],
                 headers := (baseHeaders session).set "Authorization" (.str "Bearer") },
               rfl, rfl, rfl⟩

theorem otpVerify_cases (env : Env) (req : Request) :
    Stopped "OTP_VERIFY_ERROR" req (otpVerify env req) ∨
    ∃ (o t : String) (u : UpstreamRequest),
      jsString env.numberToString (jsOr (req.body.get "otp") (.str "")) = .ok o ∧
      jsString env.numberToString
        (jsOr (jsOr (req.body.get "otpToken") (req.header "x-otp-token")) (.str "")) = .ok t ∧
      trim o ≠ "" ∧ trim t ≠ "" ∧
      u.endpoint = "/goid/token" ∧ u.method = "POST" ∧
      u.body = JVal.object [
        ("client_id", .str "go-biz-web-new"),
        ("grant_type", .str "otp"),
        ("data", JVal.object [("otp", .str (trim o)), ("otp_token", .str (trim t))])] ∧
      otpVerify env req = otpForwarded "OTP_VERIFY_FAILED" "OTP_VERIFY_ERROR" env u := by
  unfold otpVerify
  cases ho : jsString env.numberToString (jsOr (req.body.get "otp") (.str "")) with
  | error e => exact Or.inl (stopped_caught (field_error_not_sane (by decide) ho))
  | ok o =>
    cases ht : jsString env.numberToString
        (jsOr (jsOr (req.body.get "otpToken") (req.header "x-otp-token")) (.str "")) with
    | error e =>
      refine Or.inl (stopped_caught ?_)
      cases hs : req.body.sane with
      | false => rfl
      | true =>
        have hh : (req.header "x-otp-token").sane = true := by
          unfold Request.header; split <;> rfl
        have := jsString_error_not_sane ht
        rw [jsOr_sane _ _ (jsOr_sane _ _ (JVal.get_sane_value _ _ hs) hh) (by decide)] at this
        cases this
    | ok t =>
      by_cases h1 : trim o = ""
      · simp only [h1, if_true]; exact Or.inl (stopped_reject (by simp))
      by_cases h2 : trim t = ""
      · simp only [h1, h2, if_false, if_true]; exact Or.inl (stopped_reject (by simp))
      cases hs : ensureSession env req with
      | error e =>
        simp only [h1, h2, if_false]
        exact Or.inl (stopped_caught (ensureSession_error_not_sane hs))
      | ok session =>
        right
        simp only [h1, h2, if_false]
        refine ⟨o, t, _, rfl, rfl, h1, h2, ?_, ?_, ?_, rfl⟩ <;> rfl

theorem merchantSearch_cases (env : Env) (req : Request) :
    Stopped "MERCHANT_ERROR" req (merchantSearch env req) ∨
    ∃ u : UpstreamRequest,
      u.endpoint = "/v1/merchants/search" ∧ u.method = "POST" ∧
      merchantSearch env req = forwarded "MERCHANT_ERROR" env u := by
  unfold merchantSearch
  cases hb : jsString env.numberToString (jsOr (req.body.get "bearer") (.str "")) with
  | error e => exact Or.inl (stopped_caught (field_error_not_sane (by decide) hb))
  | ok b =>
    by_cases h1 : trim b = ""
    · simp only [h1, if_true]; exact Or.inl (stopped_reject (by simp))
    cases hs : ensureSession env req with
    | error e =>
      simp only [h1, if_false]
      exact Or.inl (stopped_caught (ensureSession_error_not_sane hs))
    | ok session =>
      right
      simp only [h1, if_false]
      exact ⟨{ endpoint := "/v1/merchants/search", method := "POST",
               body := JVal.object [
                 ("from", .num (.fin 0)),
                 ("to", .num (.fin 1)),
                 ("_source", JVal.array [.str "id", .str "name"])],
               headers := (baseHeaders session).set "Authorization" (.str ("Bearer " ++ trim b)) },
             rfl, rfl, rfl⟩

theorem mutasi_cases (env : Env) (req : Request) :
    Stopped "MUTASI_ERROR" req (mutasi env req) ∨
    ∃ (m d : String) (size : JsNum) (u : UpstreamRequest),
      jsString env.numberToString (jsOr (req.body.get "merchantId") (.str "")) = .ok m ∧
      jsString env.numberToString (jsOr (req.body.get "dateYmd") (.str "")) = .ok d ∧
      mutasiSize env req = .ok size ∧
      u.endpoint = "/journals/search" ∧ u.method = "POST" ∧
      u.body.get "size" = .num size ∧
      u.body.get "query" = JVal.array [
        JVal.object [("op", .str "and"), ("clauses", mutasiClauses (trim m) (trim d))]] ∧
      mutasi env req = forwarded "MUTASI_ERROR" env u := by
  unfold mutasi
  cases hb : jsString env.numberToString (jsOr (req.body.get "bearer") (.str "")) with
  | error e => exact Or.inl (stopped_caught (field_error_not_sane (by decide) hb))
  | ok b =>
    cases hm : jsString env.numberToString (jsOr (req.body.get "merchantId") (.str "")) with
    | error e => exact Or.inl (stopped_caught (field_error_not_sane (by decide) hm))
    | ok m =>
      cases hd : jsString env.numberToString (jsOr (req.body.get "dateYmd") (.str "")) with
      | error e => exact Or.inl (stopped_caught (field_error_not_sane (by decide) hd))
      | ok d =>
        cases hz : mutasiSize env req with
        | error e => exact Or.inl (stopped_caught (mutasiSize_error_not_sane hz))
        | ok size =>
          by_cases h1 : trim b = ""
          · simp only [h1, if_true]; exact Or.inl (stopped_reject (by simp))
          by_cases h2 : trim m = ""
          · simp only [h1, h2, if_false, if_true]; exact Or.inl (stopped_reject (by simp))
          by_cases h3 : trim d = ""
          · simp only [h1, h2, h3, if_false, if_true]; exact Or.inl (stopped_reject (by simp))
          cases hs : ensureSession env req with
          | error e =>
            simp only [h1, h2, h3, if_false]
            exact Or.inl (stopped_caught (ensureSession_error_not_sane hs))
          | ok session =>
            right
            simp only [h1, h2, h3, if_false]
            refine ⟨m, d, size, _, rfl, rfl, rfl, ?_, ?_, ?_, ?_, rfl⟩ <;> rfl

theorem forwarded_calls (code : String) (env : Env) (u : UpstreamRequest) :
    (forwarded code env u).calls = [u] := by
  unfold forwarded; split <;> rfl

theorem otpForwarded_calls (failed code : String) (env : Env) (u : UpstreamRequest) :
    (otpForwarded failed code env u).calls = [u] := by
  unfold otpForwarded; split
  · rfl
  · split <;> rfl

theorem forwarded_origin (code : String) (env : Env) (u : UpstreamRequest) :
    (forwarded code env u).origin ≠ .validation := by
  unfold forwarded; split <;> simp [caught]

theorem otpForwarded_origin (failed code : String) (env : Env) (u : UpstreamRequest) :
    (otpForwarded failed code env u).origin ≠ .validation := by
  unfold otpForwarded; split
  · simp [caught]
  · split <;> simp

theorem errMessage_eq (e : Thrown) :
    errMessage e = (match e.message with
          | some m => if m = "" then "UNKNOWN_ERROR" else m
          | none => "UNKNOWN_ERROR") := by
  unfold errMessage
  cases e.message with
  | none => rfl
  | some m => by_cases h : m = "" <;> simp [h]

theorem trimChars_eq_nil_iff (l : List Char) : trimChars l = [] ↔ l.all isJsWhiteSpace = true := by
  unfold trimChars
  rw [List.reverse_eq_nil_iff, List.dropWhile_eq_nil_iff]
  constructor
  · intro h
    have hd : l.dropWhile isJsWhiteSpace = [] := by
      by_contra hne
      have h1 := List.head_dropWhile_not isJsWhiteSpace l hne
      have h2 := h _ (List.mem_reverse.mpr (List.head_mem hne))
      rw [h2] at h1
      cases h1
    rw [List.dropWhile_eq_nil_iff] at hd
    simpa [List.all_eq_true] using hd
  · intro h
    have hd : l.dropWhile isJsWhiteSpace = [] := by
      rw [List.dropWhile_eq_nil_iff]
      simpa [List.all_eq_true] using h
    simp [hd]

theorem trim_eq_empty_iff (s : String) : trim s = "" ↔ isBlank s = true := by
  unfold trim isBlank
  rw [← trimChars_eq_nil_iff]
  constructor
  · intro h
    have := congrArg String.data h
    simpa using this
  · intro h
    rw [h]

theorem jsString_or_str (ns : JsNum → String) (s : String) :
    jsString ns (jsOr (.str s) (.str "")) = .ok s := by
  by_cases h : s = "" <;> simp [jsOr, JVal.truthy, jsString, h]

theorem normalizeEndpoint_of_slash (ep : String) (hslash : ep.data.head? = some '/') :
    normalizeEndpoint (.str ep) = some (beforeQuery ep) := by
  have hne : ep ≠ "" := by
    intro h; rw [h] at hslash; simp at hslash
  have hsw : startsWithChar '/' ep = true := by
    unfold startsWithChar
    cases hd : ep.data with
    | nil => rw [hd] at hslash; simp at hslash
    | cons c cs => rw [hd] at hslash; simp at hslash; simp [hslash]
  simp only [normalizeEndpoint, hne, hsw, beforeQuery, splitChars_head, if_false, Bool.not_true,
    Bool.false_eq_true]

theorem beforeQuery_slash_ne (ep : String) (hslash : ep.data.head? = some '/') :
    beforeQuery ep ≠ "" := by
  intro h
  have := congrArg String.data h
  unfold beforeQuery at this
  cases hd : ep.data with
  | nil => rw [hd] at hslash; simp at hslash
  | cons c cs =>
    rw [hd] at hslash this
    simp at hslash
    subst hslash
    simp [List.takeWhile] at this

theorem mutasiSize_of_nonzero_int (env : Env) (req : Request) (n : Int) (hn : n ≠ 0)
    (h : req.body.get "size" = .num (.fin n)) :
    mutasiSize env req = .ok (.fin ((max 1 (min 200 n) : Int))) := by
  have hq : (n : ℚ) ≠ 0 := by exact_mod_cast hn
  simp only [mutasiSize, h, jsOr, JVal.truthy, JsNum.truthy, hq, jsNumber, mathMin, mathMax,
    JsNum.lt, ne_eq, not_false_eq_true, decide_True, if_true]
  by_cases h1 : n < 200
  · have h1q : (n : ℚ) < 200 := by exact_mod_cast h1
    by_cases h2 : 1 < n
    · have h2q : (1 : ℚ) < n := by exact_mod_cast h2
      simp [h1q, h2q, min_eq_right h1.le, max_eq_right h2.le]
    · have h2q : ¬ (1 : ℚ) < n := by exact_mod_cast h2
      have : max 1 (min 200 n) = 1 := by omega
      simp [h1q, h2q, this]
  · have h1q : ¬ (n : ℚ) < 200 := by exact_mod_cast h1
    have : max 1 (min 200 n) = 200 := by omega
    simp [h1q, this]

theorem mutasiSize_omitted (env : Env) (req : Request)
    (h : req.body.get "size" = .undefined) : mutasiSize env req = .ok (.fin 50) := by
  simp [mutasiSize, h, jsOr, JVal.truthy, jsNumber, mathMin, mathMax, JsNum.lt]
  norm_num

theorem jsOr_of_truthy {a : JVal} (b : JVal) (h : a.truthy = true) : jsOr a b = a := by
  simp [jsOr, h]

theorem jsOr_of_falsy {a : JVal} (b : JVal) (h : a.truthy = false) : jsOr a b = b := by
  simp [jsOr, h]

theorem text_of_hasText (ns : JsNum → String) {req : Request} {k : String}
    (h : hasText req k = true) :
    ∃ s, req.body.get k = .str s ∧ trim s ≠ "" ∧
      jsString ns (jsOr (req.body.get k) (.str "")) = .ok s := by
  unfold hasText at h
  cases hv : req.body.get k with
  | str s =>
    rw [hv] at h
    refine ⟨s, rfl, ?_, jsString_or_str ns s⟩
    intro ht
    simp [(trim_eq_empty_iff s).mp ht] at h
  | _ => rw [hv] at h; cases h

theorem method_of_methodAllowed {env : Env} {req : Request}
    (h : methodAllowed env req = true) :
    ∃ m, jsString env.numberToString (jsOr (req.body.get "method") (.str "POST")) = .ok m ∧
      env.toUpperCase m ∈ ["POST", "GET"] := by
  unfold methodAllowed methodText at h
  cases hv : req.body.get "method" with
  | undefined =>
    rw [hv] at h
    exact ⟨"POST", by simp [jsOr, JVal.truthy, jsString], by simpa using h⟩
  | null =>
    rw [hv] at h
    exact ⟨"POST", by simp [jsOr, JVal.truthy, jsString], by simpa using h⟩
  | str m =>
    rw [hv] at h
    by_cases hm : m = ""
    · subst hm
      exact ⟨"POST", by simp [jsOr, JVal.truthy, jsString], by simpa using h⟩
    · exact ⟨m, by simp [jsOr, JVal.truthy, jsString, hm], by simpa [hm] using h⟩
  | _ => rw [hv] at h; cases h

theorem endpoint_of_endpointAllowed {req : Request} (h : endpointAllowed req = true) :
    ∃ ep, req.body.get "endpoint" = .str ep ∧ ep.data.head? = some '/' ∧
      beforeQuery ep ∈ ALLOWED := by
  unfold endpointAllowed at h
  cases hv : req.body.get "endpoint" with
  | str ep =>
    rw [hv] at h
    simp only [Bool.and_eq_true, decide_eq_true_eq] at h
    exact ⟨ep, rfl, h.1, h.2⟩
  | _ => rw [hv] at h; cases h

theorem token_of_otpTokenText (ns : JsNum → String) {req : Request} {t : String}
    (h : otpTokenText req = some t) (hb : isBlank t = false) :
    jsString ns (jsOr (jsOr (req.body.get "otpToken") (req.header "x-otp-token")) (.str "")) =
      .ok t := by
  have hne : t ≠ "" := by
    intro h0; subst h0; revert hb; decide
  have hdr : req.headers.lookup "x-otp-token" = some t →
      req.header "x-otp-token" = .str t := by
    intro hl; simp [Request.header, hl]
  unfold otpTokenText at h
  have key : jsOr (req.body.get "otpToken") (req.header "x-otp-token") = .str t := by
    cases hv : req.body.get "otpToken" with
    | undefined => rw [hv] at h; simp [jsOr, JVal.truthy, hdr h]
    | null => rw [hv] at h; simp [jsOr, JVal.truthy, hdr h]
    | str s =>
      rw [hv] at h
      by_cases hs : s = ""
      · simp only [hs, if_true] at h
        simp [jsOr, JVal.truthy, hs, hdr h]
      · simp only [hs, if_false, Option.some.injEq] at h
        subst h
        simp [jsOr, JVal.truthy, hs]
    | _ => rw [hv] at h; cases h
  rw [key]
  exact jsString_or_str ns t

theorem proxy_not_rejected (env : Env) (req : Request) (h : proxyValid env req = true) :
    (proxy env req).origin ≠ .validation := by
  unfold proxyValid at h
  simp only [Bool.and_eq_true] at h
  obtain ⟨ep, hep, hslash, hal⟩ := endpoint_of_endpointAllowed h.1
  obtain ⟨m, hm, hup⟩ := method_of_methodAllowed h.2
  have hne := beforeQuery_slash_ne ep hslash
  unfold proxy
  simp only [hm, hep, normalizeEndpoint_of_slash ep hslash, hne, hal, hup, if_false,
    not_true_eq_false]
  cases hs : ensureSession env req with
  | error e => simp [caught]
  | ok session =>
    simp only []
    split
    · simp [caught]
    · split <;> simp [caught]

theorem otpRequest_not_rejected (env : Env) (req : Request) (h : otpRequestValid req = true) :
    (otpRequest env req).origin ≠ .validation := by
  obtain ⟨p, _, hpt, hp⟩ := text_of_hasText env.numberToString h
  unfold otpRequest
  simp only [hp]
  cases hc : jsString env.numberToString (jsOr (req.body.get "countryCode") (.str "62")) with
  | error e => simp [caught]
  | ok c =>
    simp only [hpt, if_false]
    cases hs : ensureSession env req with
    | error e => simp [caught]
    | ok session =>
      simp only []
      split
      · simp [caught]
      · split <;> simp

theorem otpVerify_not_rejected (env : Env) (req : Request) (h : otpVerifyValid req = true) :
    (otpVerify env req).origin ≠ .validation := by
  unfold otpVerifyValid at h
  simp only [Bool.and_eq_true] at h
  obtain ⟨o, _, hot, ho⟩ := text_of_hasText env.numberToString h.1
  cases htok : otpTokenText req with
  | none => rw [htok] at h; simp at h
  | some t =>
    rw [htok] at h
    have hb : isBlank t = false := by simpa using h.2
    have ht := token_of_otpTokenText env.numberToString htok hb
    have htt : trim t ≠ "" := fun h0 => by simp [(trim_eq_empty_iff t).mp h0] at hb
    unfold otpVerify
    simp only [ho, ht, hot, htt, if_false]
    cases hs : ensureSession env req with
    | error e => simp [caught]
    | ok session =>
      simp only []
      split
      · simp [caught]
      · split <;> simp

theorem merchantSearch_not_rejected (env : Env) (req : Request)
    (h : merchantSearchValid req = true) :
    (merchantSearch env req).origin ≠ .validation := by
  obtain ⟨b, _, hbt, hb⟩ := text_of_hasText env.numberToString h
  unfold merchantSearch
  simp only [hb, hbt, if_false]
  cases hs : ensureSession env req with
  | error e => simp [caught]
  | ok session =>
    simp only []
    split <;> simp [caught]

theorem mutasi_not_rejected (env : Env) (req : Request) (h : mutasiValid req = true) :
    (mutasi env req).origin ≠ .validation := by
  unfold mutasiValid at h
  simp only [Bool.and_eq_true] at h
  obtain ⟨b, _, hbt, hb⟩ := text_of_hasText env.numberToString h.1.1
  obtain ⟨m, _, hmt, hm⟩ := text_of_hasText env.numberToString h.1.2
  obtain ⟨d, _, hdt, hd⟩ := text_of_hasText env.numberToString h.2
  unfold mutasi
  simp only [hb, hm, hd, hbt, hmt, hdt, if_false]
  cases hz : mutasiSize env req with
  | error e => simp [caught]
  | ok size =>
    simp only []
    cases hs : ensureSession env req with
    | error e => simp [caught]
    | ok session =>
      simp only []
      split <;> simp [caught]

theorem stopped_transportReply {code : String} {e : Thrown} {req : Request} {o : Outcome}
    (h : Stopped code req o) (hv : o.origin ≠ .validation) : TransportReply code e req o := by
  rcases h with ⟨_, h | ⟨hs, e2, rfl⟩⟩
  · exact absurd h.1 hv
  · refine ⟨rfl, by simp [caught, JVal.object, JProps.ofList, JVal.get, JProps.get], ?_⟩
    intro hs2; rw [hs] at hs2; cases hs2

theorem forwarded_transportReply {code : String} {e : Thrown} {req : Request} {env : Env}
    (hfail : ∀ r, env.axRequest r = .error e) (u : UpstreamRequest) :
    TransportReply code e req (forwarded code env u) := by
  have : forwarded code env u = caught code e [u] := by simp [forwarded, upstream, hfail]
  rw [this]
  refine ⟨rfl, by simp [caught, JVal.object, JProps.ofList, JVal.get, JProps.get],
    fun _ => ⟨by simp [caught], ?_⟩⟩
  simp [caught, errMessage_eq]

theorem otpForwarded_transportReply {failed code : String} {e : Thrown} {req : Request}
    {env : Env} (hfail : ∀ r, env.axRequest r = .error e) (u : UpstreamRequest) :
    TransportReply code e req (otpForwarded failed code env u) := by
  have : otpForwarded failed code env u = caught code e [u] := by
    simp [otpForwarded, upstream, hfail]
  rw [this]
  refine ⟨rfl, by simp [caught, JVal.object, JProps.ofList, JVal.get, JProps.get],
    fun _ => ⟨by simp [caught], ?_⟩⟩
  simp [caught, errMessage_eq]

/-! ## The properties -/

/-- C1: every upstream call made by the raw-proxy handler goes to one of the
four allowlist entries with the method `GET` or `POST`, and it is the only call
of that request: no other path or method is forwarded. -/
theorem proxy_forwards_only_allowlisted (env : Env) (req : Request) (u : UpstreamRequest)
    (h : u ∈ (proxy env req).calls) :
    (u.endpoint = "/goid/login/request" ∨ u.endpoint = "/goid/token" ∨
      u.endpoint = "/v1/merchants/search" ∨ u.endpoint = "/journals/search") ∧
    (u.method = "GET" ∨ u.method = "POST") ∧ (proxy env req).calls = [u] := by
  rcases proxy_cases env req with hs | ⟨u2, _, hal, hm, _, heq⟩
  · rw [hs.1] at h; cases h
  · rw [heq, forwarded_calls] at h ⊢
    simp only [List.mem_singleton] at h
    subst h
    refine ⟨by simpa [ALLOWED] using hal, hm.symm, rfl⟩

/-- C1 at a request for `/goid/token` with the method `get`: the call is made,
to `/goid/token` with `GET`. -/
theorem proxy_forwards_only_allowlisted_witness :
    tokenProxyCall ∈ (proxy okEnv tokenProxyRequest).calls ∧
    ((tokenProxyCall.endpoint = "/goid/login/request" ∨ tokenProxyCall.endpoint = "/goid/token" ∨
        tokenProxyCall.endpoint = "/v1/merchants/search" ∨
        tokenProxyCall.endpoint = "/journals/search") ∧
      (tokenProxyCall.method = "GET" ∨ tokenProxyCall.method = "POST") ∧
      (proxy okEnv tokenProxyRequest).calls = [tokenProxyCall]) :=
  ⟨by decide, proxy_forwards_only_allowlisted okEnv tokenProxyRequest tokenProxyCall (by decide)⟩

/-- C2 fails as stated: an endpoint string outside the allowlist that does not
start with `/` gets 400 `INVALID_ENDPOINT`; one that starts with `/` gets 500
`PROXY_ERROR` when `method` is an object with an own `toString` property, as
`String(method)` throws ahead of the allowlist check; and one whose part before
the `?` is an allowlist entry is forwarded. -/
theorem proxy_unlisted_endpoint_not_always_403 :
    ("v1/merchants/search" ∉ ALLOWED ∧
      proxy okEnv noSlashProxyRequest =
        reject 400 (JVal.object [("error", .str "INVALID_ENDPOINT")])) ∧
    ("/admin" ∉ ALLOWED ∧
      proxy okEnv badMethodProxyRequest = caught "PROXY_ERROR" cannotConvert []) ∧
    ("/v1/merchants/search?x=1" ∉ ALLOWED ∧
      (proxy okEnv queryProxyRequest).status = 200 ∧
      (proxy okEnv queryProxyRequest).calls.map (fun u => u.endpoint) =
        ["/v1/merchants/search"]) := by
  decide

/-- C2, amended: for every endpoint string that starts with `/` and whose part
before the first `?` is not in the allowlist, the raw-proxy handler replies 403
with `ENDPOINT_NOT_ALLOWED` and the normalized endpoint, and calls no upstream,
whatever the body and for every `method` that contains no object with an own
`toString` property. -/
theorem proxy_rejects_unlisted_endpoint (env : Env) (req : Request) (ep : String)
    (hep : req.body.get "endpoint" = .str ep)
    (hslash : ep.data.head? = some '/')
    (hnot : beforeQuery ep ∉ ALLOWED)
    (hmeth : (req.body.get "method").sane = true) :
    (proxy env req).status = 403 ∧
    (proxy env req).body = JVal.object
      [("error", .str "ENDPOINT_NOT_ALLOWED"), ("endpoint", .str (beforeQuery ep))] ∧
    (proxy env req).calls = [] := by
  obtain ⟨m, hm⟩ := jsString_of_sane env.numberToString _
    (jsOr_sane _ (.str "POST") hmeth (by decide))
  have h1 := beforeQuery_slash_ne ep hslash
  simp [proxy, hm, hep, normalizeEndpoint_of_slash ep hslash, h1, hnot, reject]

/-- C2, amended, at the endpoint `/admin/users?x=1` with the method `DELETE` and
a body. -/
theorem proxy_rejects_unlisted_endpoint_witness :
    beforeQuery "/admin/users?x=1" = "/admin/users" ∧
    (proxy okEnv adminProxyRequest).status = 403 ∧
    (proxy okEnv adminProxyRequest).body = JVal.object
      [("error", .str "ENDPOINT_NOT_ALLOWED"), ("endpoint", .str (beforeQuery "/admin/users?x=1"))] ∧
    (proxy okEnv adminProxyRequest).calls = [] :=
  ⟨by decide, proxy_rejects_unlisted_endpoint okEnv adminProxyRequest "/admin/users?x=1"
    (by decide) (by decide) (by decide) (by decide)⟩

/-- C3: on a string that starts with `/`, `normalizeEndpoint` returns the part
before the first `?`: the result has no `?`, and the string is the result
followed by nothing or by a rest that begins with `?`.  The raw-proxy handler
decides on that value: when it is not an allowlist entry no call is made, and
the reply is 403 `ENDPOINT_NOT_ALLOWED` for a `method` that has a string form;
when it is an allowlist entry, the method is allowed and no object of the body
has an own `toString` property, the request is forwarded, in one call whose
endpoint is that value.  Every call the handler makes has that value as
endpoint, so the URL requested is `BASE_URL` followed by it. -/
theorem normalizeEndpoint_strips_query (env : Env) (req : Request) (ep : String)
    (hslash : ep.data.head? = some '/') :
    normalizeEndpoint (.str ep) = some (beforeQuery ep) ∧
    '?' ∉ (beforeQuery ep).data ∧
    (∃ rest, ep.data = (beforeQuery ep).data ++ rest ∧ (rest = [] ∨ rest.head? = some '?')) ∧
    (req.body.get "endpoint" = .str ep →
      (beforeQuery ep ∉ ALLOWED → (proxy env req).calls = []) ∧
      (∀ u ∈ (proxy env req).calls, u.endpoint = beforeQuery ep ∧ beforeQuery ep ∈ ALLOWED ∧
        upstream env u = env.axRequest
          { method := u.method, url := BASE_URL env ++ beforeQuery ep, data := u.body,
            headers := u.headers }) ∧
      (beforeQuery ep ∈ ALLOWED → methodAllowed env req = true → req.body.sane = true →
        (proxy env req).calls.map (fun u => u.endpoint) = [beforeQuery ep]) ∧
      (beforeQuery ep ∉ ALLOWED → (req.body.get "method").sane = true →
        (proxy env req).status = 403 ∧
        (proxy env req).body = JVal.object
          [("error", .str "ENDPOINT_NOT_ALLOWED"), ("endpoint", .str (beforeQuery ep))])) := by
  have hn := normalizeEndpoint_of_slash ep hslash
  refine ⟨hn, ?_, ?_, ?_⟩
  · intro hmem
    have := List.mem_takeWhile_imp hmem
    simp at this
  · refine ⟨ep.data.dropWhile (fun c => c != '?'), ?_, ?_⟩
    · simp [beforeQuery]
    · cases hd : ep.data.dropWhile (fun c => c != '?') with
      | nil => exact Or.inl rfl
      | cons c cs =>
        right
        have hne : ep.data.dropWhile (fun c => c != '?') ≠ [] := by simp [hd]
        have := List.head_dropWhile_not (fun c => c != '?') ep.data hne
        simp [hd] at this
        simp [this]
  · intro hep
    have key : ∀ u ∈ (proxy env req).calls,
        u.endpoint = beforeQuery ep ∧ beforeQuery ep ∈ ALLOWED := by
      intro u hu
      rcases proxy_cases env req with hs | ⟨u2, hnorm, hal, _, _, heq⟩
      · rw [hs.1] at hu; cases hu
      · rw [heq, forwarded_calls] at hu
        simp only [List.mem_singleton] at hu
        subst hu
        rw [hep, hn] at hnorm
        have : beforeQuery ep = u.endpoint := by simpa using hnorm
        rw [this]
        exact ⟨rfl, hal⟩
    refine ⟨?_, ?_, ?_, ?_⟩
    · intro hnot
      cases hc : (proxy env req).calls with
      | nil => rfl
      | cons u t => exact absurd (key u (by simp [hc])).2 hnot
    · intro u hu
      obtain ⟨h1, h2⟩ := key u hu
      refine ⟨h1, h2, ?_⟩
      simp [upstream, h1]
    · intro hal hmeth hsane
      have hvalid : proxyValid env req = true := by
        simp [proxyValid, endpointAllowed, hep, hslash, hal, hmeth]
      have horig := proxy_not_rejected env req hvalid
      rcases proxy_cases env req with ⟨_, hv | ⟨hs, _⟩⟩ | ⟨u, hnorm, _, _, _, heq⟩
      · exact absurd hv.1 horig
      · rw [hsane] at hs; cases hs
      · rw [hep, hn] at hnorm
        have : beforeQuery ep = u.endpoint := by simpa using hnorm
        rw [heq, forwarded_calls, this]
        rfl
    · intro hnot hmeth
      obtain ⟨m, hm⟩ := jsString_of_sane env.numberToString _
        (jsOr_sane _ (.str "POST") hmeth (by decide))
      have h1 := beforeQuery_slash_ne ep hslash
      simp [proxy, hm, hep, hn, h1, hnot, reject]

/-- C3 at `/v1/merchants/search?x=1`: checked and forwarded as
`/v1/merchants/search`; and at `/admin/users?x=1`: checked as `/admin/users`
and refused. -/
theorem normalizeEndpoint_strips_query_witness :
    (beforeQuery "/v1/merchants/search?x=1" = "/v1/merchants/search" ∧
      "/v1/merchants/search?x=1" ∉ ALLOWED ∧ "/v1/merchants/search" ∈ ALLOWED) ∧
    normalizeEndpoint (.str "/v1/merchants/search?x=1") =
      some (beforeQuery "/v1/merchants/search?x=1") ∧
    '?' ∉ (beforeQuery "/v1/merchants/search?x=1").data ∧
    (∀ u ∈ (proxy okEnv queryProxyRequest).calls,
      u.endpoint = beforeQuery "/v1/merchants/search?x=1" ∧
      beforeQuery "/v1/merchants/search?x=1" ∈ ALLOWED ∧
      upstream okEnv u = okEnv.axRequest
        { method := u.method,
          url := BASE_URL okEnv ++ beforeQuery "/v1/merchants/search?x=1",
          data := u.body, headers := u.headers }) ∧
    (proxy okEnv queryProxyRequest).calls.map (fun u => u.endpoint) =
      [beforeQuery "/v1/merchants/search?x=1"] ∧
    ((proxy okEnv adminProxyRequest).status = 403 ∧
      (proxy okEnv adminProxyRequest).body = JVal.object
        [("error", .str "ENDPOINT_NOT_ALLOWED"),
          ("endpoint", .str (beforeQuery "/admin/users?x=1"))]) :=
  have h := normalizeEndpoint_strips_query okEnv queryProxyRequest "/v1/merchants/search?x=1"
    (by decide)
  have h2 := normalizeEndpoint_strips_query okEnv adminProxyRequest "/admin/users?x=1"
    (by decide)
  ⟨by decide, h.1, h.2.1, (h.2.2.2 (by decide)).2.1,
    (h.2.2.2 (by decide)).2.2.1 (by decide) (by decide) (by decide),
    (h2.2.2.2 (by decide)).2.2.2 (by decide) (by decide)⟩

/-- C4 at the size 0: the ledger handler sends `size: 50`, where the
specification says 1; `0 || 50` takes the default before the clamp.  The size -1 next to it goes
through the clamp and gives 1. -/
theorem mutasi_size_zero_gives_default :
    (mutasi okEnv (ledgerRequestWithSize 0)).calls.map (fun u => u.body.get "size") =
      [.num (.fin 50)] ∧
    (mutasi okEnv (ledgerRequestWithSize (-1))).calls.map (fun u => u.body.get "size") =
      [.num (.fin 1)] := by
  decide

/-- C5: for a ledger request whose `bearer`, `merchantId` and `dateYmd` are
strings that are not blank, validation passes, and every upstream call goes to
`/journals/search` with a `query` of one `and` entry of exactly three clauses:
the merchant id equal to the trimmed `merchantId`, the transaction time `gte`
the trimmed `dateYmd` followed by `T00:00:00+07:00`, and `lte` the trimmed
`dateYmd` followed by `T23:59:59+07:00`.  The call is made whenever no object
of the request body has an own `toString` property. -/
theorem mutasi_query_clauses (env : Env) (req : Request) (b m d : String)
    (hb : req.body.get "bearer" = .str b) (hm : req.body.get "merchantId" = .str m)
    (hd : req.body.get "dateYmd" = .str d)
    (hbn : isBlank b = false) (hmn : isBlank m = false) (hdn : isBlank d = false) :
    (mutasi env req).origin ≠ .validation ∧
    (∀ u ∈ (mutasi env req).calls,
      u.endpoint = "/journals/search" ∧
      u.body.get "query" = JVal.array [
        JVal.object [("op", .str "and"),
          ("clauses", JVal.array [
            JVal.object [("field", .str "metadata.transaction.merchant_id"),
              ("op", .str "equal"), ("value", .str (trim m))],
            JVal.object [("field", .str "metadata.transaction.transaction_time"),
              ("op", .str "gte"), ("value", .str (trim d ++ "T00:00:00+07:00"))],
            JVal.object [("field", .str "metadata.transaction.transaction_time"),
              ("op", .str "lte"), ("value", .str (trim d ++ "T23:59:59+07:00"))]])]]) ∧
    (req.body.sane = true → (mutasi env req).calls ≠ []) := by
  have hb2 := jsString_or_str env.numberToString b
  have hm2 := jsString_or_str env.numberToString m
  have hd2 := jsString_or_str env.numberToString d
  have hbt : trim b ≠ "" := fun h => by simp [(trim_eq_empty_iff b).mp h] at hbn
  have hmt : trim m ≠ "" := fun h => by simp [(trim_eq_empty_iff m).mp h] at hmn
  have hdt : trim d ≠ "" := fun h => by simp [(trim_eq_empty_iff d).mp h] at hdn
  rcases mutasi_cases env req with ⟨hc, hv | ⟨hs, e, he⟩⟩ | ⟨m2, d2, size, u, h1, h2, _, h4, _, _, h7, h8⟩
  · exfalso
    have horig := hv.1
    unfold mutasi at horig
    simp only [hb, hm, hd, hb2, hm2, hd2, hbt, hmt, hdt, if_false] at horig
    cases hz : mutasiSize env req with
    | error e => simp [hz, caught] at horig
    | ok size =>
      simp only [hz] at horig
      cases hsess : ensureSession env req with
      | error e => simp [hsess, caught] at horig
      | ok session =>
        simp only [hsess] at horig
        split at horig <;> simp [caught] at horig
  · rw [he]
    refine ⟨by simp [caught], by simp [caught], ?_⟩
    intro h; rw [hs] at h; cases h
  · rw [hm, hm2] at h1
    rw [hd, hd2] at h2
    injection h1 with h1
    injection h2 with h2
    subst h1 h2
    rw [h8]
    refine ⟨forwarded_origin _ _ _, ?_, ?_⟩
    · intro u2 hu2
      rw [forwarded_calls] at hu2
      simp only [List.mem_singleton] at hu2
      subst hu2
      exact ⟨h4, h7⟩
    · intro _
      simp [forwarded_calls]

/-- C5 at `dateYmd = "2024-05-01"`: the bounds are `2024-05-01T00:00:00+07:00`
and `2024-05-01T23:59:59+07:00`. -/
theorem mutasi_query_clauses_witness :
    ((mutasi okEnv ledgerRequest).calls.map (fun u => u.body.get "query") =
      [JVal.array [
        JVal.object [("op", .str "and"),
          ("clauses", JVal.array [
            JVal.object [("field", .str "metadata.transaction.merchant_id"),
              ("op", .str "equal"), ("value", .str "G123")],
            JVal.object [("field", .str "metadata.transaction.transaction_time"),
              ("op", .str "gte"), ("value", .str "2024-05-01T00:00:00+07:00")],
            JVal.object [("field", .str "metadata.transaction.transaction_time"),
              ("op", .str "lte"), ("value", .str "2024-05-01T23:59:59+07:00")]])]]]) ∧
    (mutasi okEnv ledgerRequest).origin ≠ .validation ∧
    (∀ u ∈ (mutasi okEnv ledgerRequest).calls,
      u.endpoint = "/journals/search" ∧
      u.body.get "query" = JVal.array [
        JVal.object [("op", .str "and"),
          ("clauses", JVal.array [
            JVal.object [("field", .str "metadata.transaction.merchant_id"),
              ("op", .str "equal"), ("value", .str (trim " G123 "))],
            JVal.object [("field", .str "metadata.transaction.transaction_time"),
              ("op", .str "gte"), ("value", .str (trim "2024-05-01" ++ "T00:00:00+07:00"))],
            JVal.object [("field", .str "metadata.transaction.transaction_time"),
              ("op", .str "lte"),
              ("value", .str (trim "2024-05-01" ++ "T23:59:59+07:00"))]])]]) ∧
    (mutasi okEnv ledgerRequest).calls ≠ [] :=
  have h := mutasi_query_clauses okEnv ledgerRequest "tok" " G123 " "2024-05-01"
    (by decide) (by decide) (by decide) (by decide) (by decide) (by decide)
  ⟨by decide, h.1, h.2.1, h.2.2 (by decide)⟩

/-- C6: for an OTP-verify request with an `otp` that is not blank, let `tok` be
the `x-otp-token` header when the body has no `otpToken` (absent, `null` or the
empty string), and the body's `otpToken` when it has one, whatever the header.
When `tok` is not blank, validation passes and every upstream call goes to
`/goid/token` by `POST` with the body `client_id: "go-biz-web-new"`,
`grant_type: "otp"`, `data: (otp: trimmed otp, otp_token: trimmed tok)`.  The
call is made whenever no object of the request body has an own `toString`
property. -/
theorem otpVerify_token_source (env : Env) (req : Request) (o tok : String)
    (ho : req.body.get "otp" = .str o) (hon : isBlank o = false)
    (hsrc : ((req.body.get "otpToken" = .undefined ∨ req.body.get "otpToken" = .null ∨
                req.body.get "otpToken" = .str "") ∧
              req.headers.lookup "x-otp-token" = some tok) ∨
            (req.body.get "otpToken" = .str tok ∧ tok ≠ ""))
    (htn : isBlank tok = false) :
    (otpVerify env req).origin ≠ .validation ∧
    (∀ u ∈ (otpVerify env req).calls,
      u.endpoint = "/goid/token" ∧ u.method = "POST" ∧
      u.body = JVal.object [
        ("client_id", .str "go-biz-web-new"),
        ("grant_type", .str "otp"),
        ("data", JVal.object [("otp", .str (trim o)), ("otp_token", .str (trim tok))])]) ∧
    (req.body.sane = true → (otpVerify env req).calls ≠ []) := by
  have ho2 := jsString_or_str env.numberToString o
  have hot : trim o ≠ "" := fun h => by simp [(trim_eq_empty_iff o).mp h] at hon
  have htt : trim tok ≠ "" := fun h => by simp [(trim_eq_empty_iff tok).mp h] at htn
  have htok : jsString env.numberToString
      (jsOr (jsOr (req.body.get "otpToken") (req.header "x-otp-token")) (.str "")) = .ok tok := by
    rcases hsrc with ⟨hbody, hhead⟩ | ⟨hbody, hne⟩
    · have hh : req.header "x-otp-token" = .str tok := by simp [Request.header, hhead]
      have : jsOr (req.body.get "otpToken") (req.header "x-otp-token") = .str tok := by
        rcases hbody with h | h | h <;> simp [h, hh, jsOr, JVal.truthy]
      rw [this]
      exact jsString_or_str _ _
    · have : jsOr (req.body.get "otpToken") (req.header "x-otp-token") = .str tok := by
        simp [hbody, jsOr, JVal.truthy, hne]
      rw [this]
      exact jsString_or_str _ _
  rcases otpVerify_cases env req with ⟨hc, hv | ⟨hs, e, he⟩⟩ | ⟨o2, t2, u, h1, h2, _, _, h5, h6, h7, h8⟩
  · exfalso
    have horig := hv.1
    unfold otpVerify at horig
    simp only [ho, ho2, htok, hot, htt, if_false] at horig
    cases hsess : ensureSession env req with
    | error e => simp [hsess, caught] at horig
    | ok session =>
      simp only [hsess] at horig
      split at horig
      · simp [caught] at horig
      · split at horig <;> simp at horig
  · rw [he]
    refine ⟨by simp [caught], by simp [caught], ?_⟩
    intro h; rw [hs] at h; cases h
  · rw [ho, ho2] at h1
    rw [htok] at h2
    injection h1 with h1
    injection h2 with h2
    subst h1 h2
    rw [h8]
    refine ⟨otpForwarded_origin _ _ _ _, ?_, ?_⟩
    · intro u2 hu2
      rw [otpForwarded_calls] at hu2
      simp only [List.mem_singleton] at hu2
      subst hu2
      exact ⟨h5, h6, h7⟩
    · intro _
      simp [otpForwarded_calls]

/-- C6 at `otp = "123456"`: with the token in the header only, the header value
is sent; with a token in the body and another in the header, the body value is
sent. -/
theorem otpVerify_token_source_witness :
    ((otpVerify okEnv otpHeaderRequest).calls.map (fun u => (u.endpoint, u.body)) =
        [("/goid/token", otpVerifyBody "123456" "tok-h")] ∧
      (otpVerify okEnv otpBodyRequest).calls.map (fun u => (u.endpoint, u.body)) =
        [("/goid/token", otpVerifyBody "123456" "tok-b")]) ∧
    ((otpVerify okEnv otpHeaderRequest).origin ≠ .validation ∧
      (∀ u ∈ (otpVerify okEnv otpHeaderRequest).calls,
        u.endpoint = "/goid/token" ∧ u.method = "POST" ∧
        u.body = JVal.object [
          ("client_id", .str "go-biz-web-new"),
          ("grant_type", .str "otp"),
          ("data", JVal.object [("otp", .str (trim "123456")),
            ("otp_token", .str (trim " tok-h "))])]) ∧
      (otpVerify okEnv otpHeaderRequest).calls ≠ []) ∧
    ((otpVerify okEnv otpBodyRequest).origin ≠ .validation ∧
      (∀ u ∈ (otpVerify okEnv otpBodyRequest).calls,
        u.endpoint = "/goid/token" ∧ u.method = "POST" ∧
        u.body = JVal.object [
          ("client_id", .str "go-biz-web-new"),
          ("grant_type", .str "otp"),
          ("data", JVal.object [("otp", .str (trim "123456")),
            ("otp_token", .str (trim "tok-b"))])]) ∧
      (otpVerify okEnv otpBodyRequest).calls ≠ []) :=
  have h1 := otpVerify_token_source okEnv otpHeaderRequest "123456" " tok-h "
    (by decide) (by decide) (Or.inl ⟨Or.inl (by decide), by decide⟩) (by decide)
  have h2 := otpVerify_token_source okEnv otpBodyRequest "123456" "tok-b"
    (by decide) (by decide) (Or.inr ⟨by decide, by decide⟩) (by decide)
  ⟨by decide, ⟨h1.1, h1.2.1, h1.2.2 (by decide)⟩, ⟨h2.1, h2.2.1, h2.2.2 (by decide)⟩⟩

/-- C7: in each of the five handlers a reply written by input validation comes
with no upstream call, has status 400, 403 or 405 and carries an error code.
For a `bearer` that is absent, `null` or a string, merchant search replies 400
with `ACCESS_TOKEN_REQUIRED` and no upstream call exactly when the bearer is
absent, `null`, or a string that is empty or white space only. -/
theorem validation_never_reaches_upstream (env : Env) (req : Request) :
    ValidationStops (proxy env req) ∧
    ValidationStops (otpRequest env req) ∧
    ValidationStops (otpVerify env req) ∧
    ValidationStops (merchantSearch env req) ∧
    ValidationStops (mutasi env req) ∧
    ((req.body.get "bearer" = .undefined ∨ req.body.get "bearer" = .null ∨
        ∃ s, req.body.get "bearer" = .str s) →
      (((merchantSearch env req).status = 400 ∧
        (merchantSearch env req).body = JVal.object [("error", .str "ACCESS_TOKEN_REQUIRED")] ∧
        (merchantSearch env req).calls = []) ↔
       (req.body.get "bearer" = .undefined ∨ req.body.get "bearer" = .null ∨
        ∃ s, req.body.get "bearer" = .str s ∧ isBlank s = true))) := by
  have stop : ∀ (code : String) (o : Outcome), Stopped code req o → ValidationStops o := by
    intro code o h hv
    rcases h with ⟨hc, h | ⟨_, e, rfl⟩⟩
    · exact ⟨hc, h.2⟩
    · cases hv
  have fwd : ∀ (code : String) (u : UpstreamRequest), ValidationStops (forwarded code env u) :=
    fun code u hv => absurd hv (forwarded_origin code env u)
  have ofwd : ∀ (failed code : String) (u : UpstreamRequest),
      ValidationStops (otpForwarded failed code env u) :=
    fun failed code u hv => absurd hv (otpForwarded_origin failed code env u)
  refine ⟨?_, ?_, ?_, ?_, ?_, ?_⟩
  · rcases proxy_cases env req with h | ⟨u, _, _, _, _, h⟩
    · exact stop _ _ h
    · rw [h]; exact fwd _ u
  · rcases otpRequest_cases env req with h | ⟨u, _, _, h⟩
    · exact stop _ _ h
    · rw [h]; exact ofwd _ _ u
  · rcases otpVerify_cases env req with h | ⟨_, _, u, _, _, _, _, _, _, _, h⟩
    · exact stop _ _ h
    · rw [h]; exact ofwd _ _ u
  · rcases merchantSearch_cases env req with h | ⟨u, _, _, h⟩
    · exact stop _ _ h
    · rw [h]; exact fwd _ u
  · rcases mutasi_cases env req with h | ⟨_, _, _, u, _, _, _, _, _, _, _, h⟩
    · exact stop _ _ h
    · rw [h]; exact fwd _ u
  · intro htyped
    have missing : ∀ v : JVal, req.body.get "bearer" = v → v.truthy = false →
        merchantSearch env req =
          reject 400 (JVal.object [("error", .str "ACCESS_TOKEN_REQUIRED")]) := by
      intro v hv ht
      have : trim "" = "" := by decide
      simp [merchantSearch, hv, jsOr, ht, jsString, this]
    rcases htyped with hu | hn | ⟨s, hs⟩
    · rw [missing _ hu rfl]
      simp [reject, hu]
    · rw [missing _ hn rfl]
      simp [reject, hn]
    · have hstr := jsString_or_str env.numberToString s
      by_cases hb : isBlank s = true
      · have ht := (trim_eq_empty_iff s).mpr hb
        have : merchantSearch env req =
            reject 400 (JVal.object [("error", .str "ACCESS_TOKEN_REQUIRED")]) := by
          simp [merchantSearch, hs, hstr, ht]
        rw [this]
        simp [reject, hs, hb]
      · have ht : trim s ≠ "" := fun h => hb ((trim_eq_empty_iff s).mp h)
        constructor
        · rintro ⟨hst, _, hcalls⟩
          exfalso
          unfold merchantSearch at hst hcalls
          simp only [hs, hstr, ht, if_false] at hst hcalls
          cases hsess : ensureSession env req with
          | error e => simp [hsess, caught] at hst
          | ok session =>
            simp only [hsess] at hcalls
            split at hcalls <;> simp [caught] at hcalls
        · rintro (h | h | ⟨s2, h1, h2⟩)
          · rw [hs] at h; cases h
          · rw [hs] at h; cases h
          · rw [hs] at h1
            injection h1 with h1
            subst h1
            exact absurd h2 hb

/-- C7 at a merchant search whose bearer is white space: the reply is written by
validation, 400 `ACCESS_TOKEN_REQUIRED`, with no upstream call; with a bearer
the call is made. -/
theorem validation_never_reaches_upstream_witness :
    ((merchantSearch okEnv blankBearerRequest).origin = .validation ∧
      (merchantSearch okEnv merchantRequest).calls.length = 1) ∧
    ((merchantSearch okEnv blankBearerRequest).calls = [] ∧
      ((merchantSearch okEnv blankBearerRequest).status = 400 ∨
        (merchantSearch okEnv blankBearerRequest).status = 403 ∨
        (merchantSearch okEnv blankBearerRequest).status = 405) ∧
      ∃ c, (merchantSearch okEnv blankBearerRequest).body.get "error" = .str c) ∧
    ((merchantSearch okEnv blankBearerRequest).status = 400 ∧
      (merchantSearch okEnv blankBearerRequest).body =
        JVal.object [("error", .str "ACCESS_TOKEN_REQUIRED")] ∧
      (merchantSearch okEnv blankBearerRequest).calls = []) :=
  have h := validation_never_reaches_upstream okEnv blankBearerRequest
  ⟨by decide, h.2.2.2.1 (by decide),
    (h.2.2.2.2.2 (Or.inr (Or.inr ⟨"  ", by decide⟩))).mpr
      (Or.inr (Or.inr ⟨"  ", by decide, by decide⟩))⟩

/-- C8 fails as stated: a raw string body that is empty gives `HTTP_502`, not the
body itself, and a body whose `message` field is the empty string gives its
`error` field, not `data.message`. -/
theorem pickUpstreamErr_empty_fields_fall_through :
    (pickUpstreamErr ⟨502, .str ""⟩ = .str "HTTP_502" ∧
      pickUpstreamErr ⟨502, .str ""⟩ ≠ .str "") ∧
    (pickUpstreamErr ⟨400, JVal.object [("message", .str ""), ("error", .str "invalid_otp")]⟩ =
        .str "invalid_otp" ∧
      (JVal.object [("message", .str ""), ("error", .str "invalid_otp")]).get "message" =
        .str "") ∧
    (otpRequest badGatewayEnv phoneRequest).body =
      JVal.object [("error", .str "OTP_REQUEST_FAILED"), ("message", .str "HTTP_502"),
        ("data", .null)] := by
  decide

/-- C8, amended: `pickUpstreamErr` returns `data.message` when that is truthy;
otherwise `data.error` when that is truthy; the body itself when the body is a
raw string that is not empty; otherwise `HTTP_` followed by the status code.
That value is the `message` of the reply of a failed OTP request or OTP verify
(status outside 2xx), next to the upstream status and `data`. -/
theorem pickUpstreamErr_order (resp : UpstreamResponse) :
    ((resp.data.get "message").truthy = true →
      pickUpstreamErr resp = resp.data.get "message") ∧
    ((resp.data.get "message").truthy = false → (resp.data.get "error").truthy = true →
      pickUpstreamErr resp = resp.data.get "error") ∧
    (∀ s, resp.data = .str s → s ≠ "" → pickUpstreamErr resp = .str s) ∧
    ((resp.data.get "message").truthy = false → (resp.data.get "error").truthy = false →
      (∀ s, resp.data = .str s → s = "") →
      pickUpstreamErr resp = .str ("HTTP_" ++ Nat.repr resp.status)) ∧
    (∀ (env : Env) (req : Request) (u : UpstreamRequest),
      u ∈ (otpRequest env req).calls → upstream env u = .ok resp →
      (resp.status < 200 ∨ 300 ≤ resp.status) →
      (otpRequest env req).status = resp.status ∧
      (otpRequest env req).body = JVal.object [("error", .str "OTP_REQUEST_FAILED"),
        ("message", pickUpstreamErr resp), ("data", jsOr resp.data .null)]) ∧
    (∀ (env : Env) (req : Request) (u : UpstreamRequest),
      u ∈ (otpVerify env req).calls → upstream env u = .ok resp →
      (resp.status < 200 ∨ 300 ≤ resp.status) →
      (otpVerify env req).status = resp.status ∧
      (otpVerify env req).body = JVal.object [("error", .str "OTP_VERIFY_FAILED"),
        ("message", pickUpstreamErr resp), ("data", jsOr resp.data .null)]) := by
  refine ⟨?_, ?_, ?_, ?_, ?_, ?_⟩
  · intro h
    unfold pickUpstreamErr
    rw [jsOr_of_truthy _ h]
  · intro h1 h2
    unfold pickUpstreamErr
    rw [jsOr_of_falsy _ h1, jsOr_of_truthy _ h2]
  · intro s hs hne
    unfold pickUpstreamErr
    rw [hs]
    have hstr : (JVal.str s).truthy = true := by simp [JVal.truthy, hne]
    rw [jsOr_of_falsy _ (by rfl : ((JVal.str s).get "message").truthy = false),
      jsOr_of_falsy _ (by rfl : ((JVal.str s).get "error").truthy = false)]
    exact jsOr_of_truthy _ hstr
  · intro h1 h2 h3
    unfold pickUpstreamErr
    rw [jsOr_of_falsy _ h1, jsOr_of_falsy _ h2]
    apply jsOr_of_falsy
    cases hd : resp.data with
    | str s =>
      have := h3 s hd
      subst this
      rfl
    | _ => rfl
  · intro env req u hu hup hst
    rcases otpRequest_cases env req with h | ⟨u2, _, _, h⟩
    · rw [h.1] at hu; cases hu
    · rw [h, otpForwarded_calls] at hu
      simp only [List.mem_singleton] at hu
      subst hu
      rw [h]
      have hst2 : resp.status < 200 ∨ resp.status ≥ 300 := hst
      simp [otpForwarded, hup, hst2]
  · intro env req u hu hup hst
    rcases otpVerify_cases env req with h | ⟨_, _, u2, _, _, _, _, _, _, _, h⟩
    · rw [h.1] at hu; cases hu
    · rw [h, otpForwarded_calls] at hu
      simp only [List.mem_singleton] at hu
      subst hu
      rw [h]
      have hst2 : resp.status < 200 ∨ resp.status ≥ 300 := hst
      simp [otpForwarded, hup, hst2]

/-- C9 fails as stated: an OTP request whose upstream call is answered with the
status 201 is replied to with the status 200. -/
theorem otp_success_status_is_200 :
    (otpRequest createdEnv phoneRequest).calls = [phoneCall] ∧
    upstream createdEnv phoneCall = .ok ⟨201, JVal.object [("otp_token", .str "a1b2")]⟩ ∧
    (otpRequest createdEnv phoneRequest).status = 200 ∧
    (otpRequest createdEnv phoneRequest).status ≠ 201 := by
  decide

/-- C9, amended: on an upstream response with a 2xx status `s` and body `d`, the
raw proxy, merchant search and the ledger query reply with status `s` and body
`d`; OTP request and OTP verify reply with status 200 and body `d`. -/
theorem success_passthrough (env : Env) (req : Request) (u : UpstreamRequest) (s : Nat) (d : JVal)
    (hlo : 200 ≤ s) (hhi : s < 300) (hup : upstream env u = .ok ⟨s, d⟩) :
    (u ∈ (proxy env req).calls → (proxy env req).status = s ∧ (proxy env req).body = d) ∧
    (u ∈ (merchantSearch env req).calls →
      (merchantSearch env req).status = s ∧ (merchantSearch env req).body = d) ∧
    (u ∈ (mutasi env req).calls → (mutasi env req).status = s ∧ (mutasi env req).body = d) ∧
    (u ∈ (otpRequest env req).calls →
      (otpRequest env req).status = 200 ∧ (otpRequest env req).body = d) ∧
    (u ∈ (otpVerify env req).calls →
      (otpVerify env req).status = 200 ∧ (otpVerify env req).body = d) := by
  have fwd : ∀ (code : String) (o : Outcome) (u2 : UpstreamRequest),
      o = forwarded code env u2 → u ∈ o.calls → o.status = s ∧ o.body = d := by
    intro code o u2 ho hu
    subst ho
    rw [forwarded_calls] at hu
    simp only [List.mem_singleton] at hu
    subst hu
    simp [forwarded, hup]
  have ofwd : ∀ (failed code : String) (o : Outcome) (u2 : UpstreamRequest),
      o = otpForwarded failed code env u2 → u ∈ o.calls → o.status = 200 ∧ o.body = d := by
    intro failed code o u2 ho hu
    subst ho
    rw [otpForwarded_calls] at hu
    simp only [List.mem_singleton] at hu
    subst hu
    have : ¬ (s < 200 ∨ s ≥ 300) := by omega
    simp [otpForwarded, hup, this]
  refine ⟨?_, ?_, ?_, ?_, ?_⟩
  · intro hu
    rcases proxy_cases env req with h | ⟨u2, _, _, _, _, h⟩
    · rw [h.1] at hu; cases hu
    · exact fwd _ _ u2 h hu
  · intro hu
    rcases merchantSearch_cases env req with h | ⟨u2, _, _, h⟩
    · rw [h.1] at hu; cases hu
    · exact fwd _ _ u2 h hu
  · intro hu
    rcases mutasi_cases env req with h | ⟨_, _, _, u2, _, _, _, _, _, _, _, h⟩
    · rw [h.1] at hu; cases hu
    · exact fwd _ _ u2 h hu
  · intro hu
    rcases otpRequest_cases env req with h | ⟨u2, _, _, h⟩
    · rw [h.1] at hu; cases hu
    · exact ofwd _ _ _ u2 h hu
  · intro hu
    rcases otpVerify_cases env req with h | ⟨_, _, u2, _, _, _, _, _, _, _, h⟩
    · rw [h.1] at hu; cases hu
    · exact ofwd _ _ _ u2 h hu

/-- C9, amended, at an upstream that answers 201: the raw proxy replies 201, the
OTP request replies 200, both with the upstream body. -/
theorem success_passthrough_witness :
    (upstream createdEnv phoneCall = .ok ⟨201, JVal.object [("otp_token", .str "a1b2")]⟩ ∧
      tokenProxyCall ∈ (proxy createdEnv tokenProxyRequest).calls ∧
      phoneCall ∈ (otpRequest createdEnv phoneRequest).calls) ∧
    ((proxy createdEnv tokenProxyRequest).status = 201 ∧
      (proxy createdEnv tokenProxyRequest).body = JVal.object [("otp_token", .str "a1b2")]) ∧
    ((otpRequest createdEnv phoneRequest).status = 200 ∧
      (otpRequest createdEnv phoneRequest).body = JVal.object [("otp_token", .str "a1b2")]) :=
  ⟨by decide,
    (success_passthrough createdEnv tokenProxyRequest tokenProxyCall 201
      (JVal.object [("otp_token", .str "a1b2")]) (by decide) (by decide) (by decide)).1
      (by decide),
    (success_passthrough createdEnv phoneRequest phoneCall 201
      (JVal.object [("otp_token", .str "a1b2")]) (by decide) (by decide) (by decide)).2.2.2.1
      (by decide)⟩

/-- C10: when the transport fails with `e` on every call, each of the five
handlers replies to a request that passes its input validation with status 500
and its own code (`PROXY_ERROR`, `OTP_REQUEST_ERROR`, `OTP_VERIFY_ERROR`,
`MERCHANT_ERROR`, `MUTASI_ERROR`); when no object of the request body has an
own `toString` property the upstream call was made and the message is the
message of `e` when it has one that is not empty, else `UNKNOWN_ERROR`.  A
request passes validation when its required fields are strings that are not
blank, and for the raw proxy when the endpoint passes the gate and the method
is `GET` or `POST`. -/
theorem transport_failure_gives_500 (env : Env) (req : Request) (e : Thrown)
    (hfail : ∀ r, env.axRequest r = .error e) :
    (proxyValid env req = true → TransportReply "PROXY_ERROR" e req (proxy env req)) ∧
    (otpRequestValid req = true →
      TransportReply "OTP_REQUEST_ERROR" e req (otpRequest env req)) ∧
    (otpVerifyValid req = true →
      TransportReply "OTP_VERIFY_ERROR" e req (otpVerify env req)) ∧
    (merchantSearchValid req = true →
      TransportReply "MERCHANT_ERROR" e req (merchantSearch env req)) ∧
    (mutasiValid req = true → TransportReply "MUTASI_ERROR" e req (mutasi env req)) := by
  refine ⟨?_, ?_, ?_, ?_, ?_⟩
  · intro hv
    have ho := proxy_not_rejected env req hv
    rcases proxy_cases env req with h | ⟨u, _, _, _, _, h⟩
    · exact stopped_transportReply h ho
    · rw [h]; exact forwarded_transportReply hfail u
  · intro hv
    have ho := otpRequest_not_rejected env req hv
    rcases otpRequest_cases env req with h | ⟨u, _, _, h⟩
    · exact stopped_transportReply h ho
    · rw [h]; exact otpForwarded_transportReply hfail u
  · intro hv
    have ho := otpVerify_not_rejected env req hv
    rcases otpVerify_cases env req with h | ⟨_, _, u, _, _, _, _, _, _, _, h⟩
    · exact stopped_transportReply h ho
    · rw [h]; exact otpForwarded_transportReply hfail u
  · intro hv
    have ho := merchantSearch_not_rejected env req hv
    rcases merchantSearch_cases env req with h | ⟨u, _, _, h⟩
    · exact stopped_transportReply h ho
    · rw [h]; exact forwarded_transportReply hfail u
  · intro hv
    have ho := mutasi_not_rejected env req hv
    rcases mutasi_cases env req with h | ⟨_, _, _, u, _, _, _, _, _, _, _, h⟩
    · exact stopped_transportReply h ho
    · rw [h]; exact forwarded_transportReply hfail u

/-- C10 at a transport that times out, for one request to each of the five
handlers: 500 with the handler's code and the message of the timeout, after the
upstream call; and at a failure without message: `UNKNOWN_ERROR`. -/
theorem transport_failure_gives_500_witness :
    ((proxy timeoutEnv tokenProxyRequest).status = 500 ∧
      (proxy timeoutEnv tokenProxyRequest).calls ≠ [] ∧
      (proxy timeoutEnv tokenProxyRequest).body = JVal.object [("error", .str "PROXY_ERROR"),
        ("message", .str "timeout of 30000ms exceeded")]) ∧
    ((otpRequest timeoutEnv phoneRequest).status = 500 ∧
      (otpRequest timeoutEnv phoneRequest).calls ≠ [] ∧
      (otpRequest timeoutEnv phoneRequest).body = JVal.object
        [("error", .str "OTP_REQUEST_ERROR"),
          ("message", .str "timeout of 30000ms exceeded")]) ∧
    ((otpVerify timeoutEnv otpHeaderRequest).status = 500 ∧
      (otpVerify timeoutEnv otpHeaderRequest).calls ≠ [] ∧
      (otpVerify timeoutEnv otpHeaderRequest).body = JVal.object
        [("error", .str "OTP_VERIFY_ERROR"),
          ("message", .str "timeout of 30000ms exceeded")]) ∧
    ((merchantSearch timeoutEnv merchantRequest).status = 500 ∧
      (merchantSearch timeoutEnv merchantRequest).calls ≠ [] ∧
      (merchantSearch timeoutEnv merchantRequest).body = JVal.object
        [("error", .str "MERCHANT_ERROR"),
          ("message", .str "timeout of 30000ms exceeded")]) ∧
    ((mutasi timeoutEnv ledgerRequest).status = 500 ∧
      (mutasi timeoutEnv ledgerRequest).calls ≠ [] ∧
      (mutasi timeoutEnv ledgerRequest).body = JVal.object [("error", .str "MUTASI_ERROR"),
        ("message", .str "timeout of 30000ms exceeded")]) ∧
    ((mutasi silentFailEnv ledgerRequest).status = 500 ∧
      (mutasi silentFailEnv ledgerRequest).calls ≠ [] ∧
      (mutasi silentFailEnv ledgerRequest).body = JVal.object [("error", .str "MUTASI_ERROR"),
        ("message", .str "UNKNOWN_ERROR")]) :=
  have h1 := (transport_failure_gives_500 timeoutEnv tokenProxyRequest timeoutError
    (fun _ => rfl)).1 (by decide)
  have h2 := (transport_failure_gives_500 timeoutEnv phoneRequest timeoutError
    (fun _ => rfl)).2.1 (by decide)
  have h3 := (transport_failure_gives_500 timeoutEnv otpHeaderRequest timeoutError
    (fun _ => rfl)).2.2.1 (by decide)
  have h4 := (transport_failure_gives_500 timeoutEnv merchantRequest timeoutError
    (fun _ => rfl)).2.2.2.1 (by decide)
  have h5 := (transport_failure_gives_500 timeoutEnv ledgerRequest timeoutError
    (fun _ => rfl)).2.2.2.2 (by decide)
  have h6 := (transport_failure_gives_500 silentFailEnv ledgerRequest ⟨none⟩
    (fun _ => rfl)).2.2.2.2 (by decide)
  ⟨⟨h1.1, h1.2.2 (by decide)⟩, ⟨h2.1, h2.2.2 (by decide)⟩, ⟨h3.1, h3.2.2 (by decide)⟩,
    ⟨h4.1, h4.2.2 (by decide)⟩, ⟨h5.1, h5.2.2 (by decide)⟩, ⟨h6.1, h6.2.2 (by decide)⟩⟩

end GoBizProxy
